import Mathlib

/-!
# Verification of the nextdoor-podcast-discovery scoring/ranking core

A shallow embedding of the scoring pipeline and background-job orchestrator
of the scraper (`src/scraper/src/novelty.py`, `llm_scorer.py`, `worker.py`),
with theorems settling the specification claims about it.

Python floats are modelled as `Rat` (the numeric literals involved are exact
decimals and the claims are about exact thresholds, clamps and medians, not
rounding).  Python dicts are modelled as association lists whose `lookup`
takes the first matching key, which agrees with dict semantics since all
dicts built by this code have unique keys.
-/

namespace NPD

/-! ## Novelty engine (src/scraper/src/novelty.py) -/

/-- Constant `COLD_START_THRESHOLD` (novelty.py line 13). -/
def COLD_START_THRESHOLD : Int := 30

/-- The novelty configuration values used by `calculate_novelty`.
In novelty.py lines 58-63 these are extracted from a config dict with
defaults `min_multiplier = 0.2`, `max_multiplier = 1.5`,
`frequency_thresholds = {rare: 5, common: 30, very_common: 100}`;
the claims quantify over the extracted numbers, so the embedding takes
them as a record. -/
structure NovCfg where
  min_multiplier : Rat
  max_multiplier : Rat
  rare : Int
  common : Int
  very_common : Int
deriving DecidableEq

/-- The default configuration hard-coded in novelty.py / worker.py. -/
def defaultNovCfg : NovCfg :=
  { min_multiplier := 1/5, max_multiplier := 3/2,
    rare := 5, common := 30, very_common := 100 }

/-- Python `frequencies.get(cat, 0)` (novelty.py line 68). -/
def freqGet (frequencies : List (String × Int)) (cat : String) : Int :=
  (frequencies.lookup cat).getD 0

/-- Source `total_freq = sum(frequencies.get(cat, 0) for cat in categories)`
(novelty.py line 68). -/
def totalFreq (categories : List String) (frequencies : List (String × Int)) : Int :=
  (categories.map (freqGet frequencies)).sum

/-- Source `avg_freq = float(total_freq) / len(categories) if categories else 0.0`
(novelty.py line 69). -/
def avgFreq (categories : List String) (frequencies : List (String × Int)) : Rat :=
  if categories = [] then 0
  else (totalFreq categories frequencies : Rat) / (categories.length : Rat)

/-- The piecewise-linear mapping from average frequency to multiplier
(novelty.py lines 75-92), as a function of `avg_freq`; `calculate_novelty`
applies it to `avgFreq` exactly as the source does after its early returns. -/
def noveltyOfAvg (cfg : NovCfg) (avg_freq : Rat) : Rat :=
  if avg_freq ≤ (cfg.rare : Rat) then cfg.max_multiplier
  else if avg_freq ≤ (cfg.common : Rat) then
    let divisor : Int := cfg.common - cfg.rare
    if divisor ≤ 0 then 1
    else cfg.max_multiplier -
      (avg_freq - (cfg.rare : Rat)) / (divisor : Rat) * (cfg.max_multiplier - 1)
  else if avg_freq ≤ (cfg.very_common : Rat) then
    let divisor : Int := cfg.very_common - cfg.common
    if divisor ≤ 0 then cfg.min_multiplier
    else 1 - (avg_freq - (cfg.common : Rat)) / (divisor : Rat) * (1 - cfg.min_multiplier)
  else cfg.min_multiplier

/-- Function `calculate_novelty` (novelty.py lines 16-92). -/
def calculate_novelty (categories : List String) (frequencies : List (String × Int))
    (cfg : NovCfg) (total_scored_count : Option Int) : Rat :=
  if categories = [] then 1
  else if frequencies = [] then 1
  else if (match total_scored_count with
           | some n => decide (n < COLD_START_THRESHOLD)
           | none => false) then 1
  else noveltyOfAvg cfg (avgFreq categories frequencies)

/-! ## JSON values and Python-semantics helpers -/

/-- A parsed JSON value as produced by `json.loads`.  Booleans are kept
separate from numbers, but note that Python's `bool` is a subclass of `int`,
so `isinstance(b, (int, float))` is true for booleans, which then compare as
the numbers 0 and 1; `pyIsNumber`/`pyNumVal` reflect this. -/
inductive JValue where
  | null : JValue
  | bool : Bool → JValue
  | num : Rat → JValue
  | str : String → JValue
  | arr : List JValue → JValue
  | obj : List (String × JValue) → JValue

/-- Python truthiness of a JSON value. -/
def pyTruthy : JValue → Bool
  | .null => false
  | .bool b => b
  | .num q => decide (q ≠ 0)
  | .str s => decide (s ≠ "")
  | .arr [] => false
  | .arr (_ :: _) => true
  | .obj [] => false
  | .obj (_ :: _) => true

/-- Python `isinstance(v, (int, float))`: true for numbers and booleans. -/
def pyIsNumber : JValue → Bool
  | .num _ => true
  | .bool _ => true
  | _ => false

/-- The numeric value of a Python int/float/bool. -/
def pyNumVal : JValue → Rat
  | .num q => q
  | .bool b => if b then 1 else 0
  | _ => 0

/-- Python `d.get(k)` on a JSON object's field list. -/
def jGet (fields : List (String × JValue)) (k : String) : Option JValue :=
  fields.lookup k

/-- Python `d.get(k, dflt)`. -/
def jGetD (fields : List (String × JValue)) (k : String) (dflt : JValue) : JValue :=
  (jGet fields k).getD dflt

/-- Python string slicing `s[:n]` (by code point, as Lean chars). -/
def pyTake (n : Nat) (s : String) : String := String.mk (s.data.take n)

/-- Python `str.strip()`: whitespace trimmed from both ends (the embedding
uses `Char.isWhitespace`, which covers the ASCII whitespace this code
meets). -/
def pyStrip (s : String) : String :=
  String.mk
    (((s.data.dropWhile Char.isWhitespace).reverse.dropWhile Char.isWhitespace).reverse)

/-- Python `x or ""` for an optional string: `None` and `""` are falsy and
give `""`; any other string gives itself. -/
def pyOrEmpty (x : Option String) : String :=
  match x with
  | none => ""
  | some s => s

/-- Python `s or None`: an empty string normalises to absent. -/
def strOrNone (s : String) : Option String :=
  if s = "" then none else some s

/-- Python truthiness of an optional string field such as `PostScore.error`
(`None` and `""` are falsy). -/
def pyTruthyStr : Option String → Bool
  | none => false
  | some s => decide (s ≠ "")

/-! ## LLM scorer data model (src/scraper/src/llm_scorer.py, llm_prompts.py) -/

/-- Constant `MAX_SUMMARY_LENGTH` (llm_prompts.py line 26). -/
def MAX_SUMMARY_LENGTH : Nat := 500

/-- The keys of `SCORING_DIMENSIONS` (llm_prompts.py lines 33-63), in dict
insertion order. -/
def SCORING_DIMENSIONS : List String :=
  ["absurdity", "discussion_spark", "drama", "emotional_intensity",
   "news_value", "podcast_worthy", "readability"]

/-- Constant `TOPIC_CATEGORIES` (llm_prompts.py lines 65-74). -/
def TOPIC_CATEGORIES : List String :=
  ["crime", "drama", "humor", "local_news", "lost_pet", "noise",
   "suspicious", "wildlife"]

/-- The `PostScore` dataclass (llm_scorer.py lines 143-163). -/
structure PostScore where
  post_id : String
  scores : List (String × Rat)
  categories : List String
  summary : String
  final_score : Option Rat := none
  why_podcast_worthy : Option String := none
  error : Option String := none
  raw_response : Option String := none
deriving DecidableEq, Inhabited

/-! ## Score validation (llm_scorer.py lines 372-398 and 611-648)

Both scoring paths validate a parsed model response with the same
per-dimension expression; Python exceptions raised on fields of unexpected
type (AttributeError / TypeError) are modelled as `Except.error`. -/

/-- The per-dimension validation expression, duplicated verbatim in the
source at llm_scorer.py lines 376-378 and 617-621:
`float(s) if isinstance(s, (int, float)) and 1 <= s <= 10 else 5.0`. -/
def validDim (s : Option JValue) : Rat :=
  match s with
  | some v =>
      if pyIsNumber v ∧ 1 ≤ pyNumVal v ∧ pyNumVal v ≤ 10 then pyNumVal v else 5
  | none => 5

/-- Python dict assignment `d[k] = v` (overwrite in place, else append). -/
def dictSet (d : List (String × Rat)) (k : String) (v : Rat) : List (String × Rat) :=
  if d.any (fun p => p.1 = k) then
    d.map (fun p => if p.1 = k then (k, v) else p)
  else d ++ [(k, v)]

/-- The optional `podcast_worthy` re-assignment (llm_scorer.py lines 379-381
and 625-627).  `"podcast_worthy"` is itself a key of `SCORING_DIMENSIONS`,
so when it fires it overwrites that entry with the same value. -/
def applyPwBlock (sf : List (String × JValue)) (base : List (String × Rat)) :
    List (String × Rat) :=
  match jGet sf "podcast_worthy" with
  | some v =>
      if pyIsNumber v ∧ 1 ≤ pyNumVal v ∧ pyNumVal v ≤ 10 then
        dictSet base "podcast_worthy" (pyNumVal v)
      else base
  | none => base

/-- Validated scores dict built by the loop `for dim in SCORING_DIMENSIONS`
followed by the `podcast_worthy` block. -/
def validatedScores (sf : List (String × JValue)) : List (String × Rat) :=
  applyPwBlock sf (SCORING_DIMENSIONS.map (fun dim => (dim, validDim (jGet sf dim))))

/-- Source `scores = data.get("scores", {})` followed by `scores.get(dim)`:
if the field is present but not an object, `.get` on it raises
AttributeError. -/
def getScoresDict (data : List (String × JValue)) :
    Except String (List (String × JValue)) :=
  match jGetD data "scores" (.obj []) with
  | .obj sf => .ok sf
  | _ => .error "AttributeError"

/-- The values Python iterates over in `for c in raw_cats`: elements of a
list, characters of a string (as 1-character strings), or keys of a dict;
`None`, booleans and numbers are not iterable and raise TypeError. -/
def pyIterElems : JValue → Except String (List JValue)
  | .arr xs => .ok xs
  | .str s => .ok (s.data.map (fun ch => .str (String.mk [ch])))
  | .obj fs => .ok (fs.map (fun p => .str p.1))
  | _ => .error "TypeError"

/-- Source `raw_categories = data.get("categories", [])` followed by
`[c for c in raw_categories if c in TOPIC_CATEGORIES]`; membership in a list
of strings is false for any non-string element, so only known category
strings survive. -/
def getCategories (data : List (String × JValue)) : Except String (List String) :=
  match pyIterElems (jGetD data "categories" (.arr [])) with
  | .ok elems =>
      .ok (elems.filterMap fun j =>
        match j with
        | .str s => if s ∈ TOPIC_CATEGORIES then some s else none
        | _ => none)
  | .error e => .error e

/-- Source `summary = data.get("summary", "")[:MAX_SUMMARY_LENGTH]`
(llm_scorer.py line 636, single-post path: no `or ""` guard, so a null
summary raises TypeError).  Python would also accept a list here (slicing),
producing a non-string summary no writer of this field ever produces; the
embedding reports that out-of-model case as an error as well. -/
def getSummarySingle (data : List (String × JValue)) : Except String String :=
  match jGetD data "summary" (.str "") with
  | .str s => .ok (pyTake MAX_SUMMARY_LENGTH s)
  | _ => .error "TypeError"

/-- Source `(item.get("summary") or "")[:MAX_SUMMARY_LENGTH]`
(llm_scorer.py line 385, batch path: falsy values are replaced by `""`
before slicing). -/
def getSummaryBatch (item : List (String × JValue)) : Except String String :=
  let sv := jGetD item "summary" .null
  if pyTruthy sv = false then .ok ""
  else match sv with
    | .str s => .ok (pyTake MAX_SUMMARY_LENGTH s)
    | _ => .error "TypeError"

/-- Source `(x.get("why_podcast_worthy") or "")[:MAX_SUMMARY_LENGTH].strip()
or None` (llm_scorer.py lines 386-388 and 637-639).  A falsy field (absent,
null, `""`, 0, false, empty containers) yields `""` and hence `None`; a
truthy non-string raises (TypeError on slicing, or AttributeError on
`.strip` for a sliceable list). -/
def getWhy (data : List (String × JValue)) : Except String (Option String) :=
  let wv := jGetD data "why_podcast_worthy" .null
  if pyTruthy wv = false then .ok none
  else match wv with
    | .str s => .ok (strOrNone (pyStrip (pyTake MAX_SUMMARY_LENGTH s)))
    | _ => .error "TypeError"

/-- The validation/normalisation step of `_score_single_post`
(llm_scorer.py lines 611-648), applied to one parsed JSON object. -/
def validateSinglePost (post_id : String) (raw_response : String)
    (data : List (String × JValue)) : Except String PostScore := do
  let sf ← getScoresDict data
  let validated := validatedScores sf
  let categories ← getCategories data
  let summary ← getSummarySingle data
  let why ← getWhy data
  return { post_id := post_id, scores := validated, categories := categories,
           summary := summary, why_podcast_worthy := why,
           raw_response := some raw_response }

/-- The per-post validation step of `_score_batch_single_run`
(llm_scorer.py lines 372-398), applied to one parsed batch item. -/
def validateBatchItem (post_id : String) (item : List (String × JValue)) :
    Except String PostScore := do
  let sf ← getScoresDict item
  let validated := validatedScores sf
  let categories ← getCategories item
  let summary ← getSummaryBatch item
  let why ← getWhy item
  return { post_id := post_id, scores := validated, categories := categories,
           summary := summary, why_podcast_worthy := why }

/-! ## Ensemble aggregation (llm_scorer.py lines 55-140 and 232-270) -/

/-- Insertion step of an ascending sort of rationals. -/
def insertSorted (x : Rat) : List Rat → List Rat
  | [] => [x]
  | y :: ys => if x ≤ y then x :: y :: ys else y :: insertSorted x ys

/-- Python `sorted` on a list of floats (insertion sort; only the sorted
order matters for the median). -/
def sortAsc (l : List Rat) : List Rat := l.foldr insertSorted []

/-- Python `statistics.median`: the middle element of the sorted list, or
the mean of the two middle elements for even length (callers guard against
the empty list, on which Python raises). -/
def median (l : List Rat) : Rat :=
  let s := sortAsc l
  let n := s.length
  if n % 2 = 1 then s.getD (n / 2) 0
  else (s.getD (n / 2 - 1) 0 + s.getD (n / 2) 0) / 2

/-- Placeholder for out-of-range list indexing.  Python raises IndexError
when a run is shorter than the first run; the callers only produce runs of
equal length (one result per post), which the theorems assume. -/
def dfltPostScore : PostScore :=
  { post_id := "", scores := [], categories := [], summary := "" }

/-- Source `not r.error and r.scores` (llm_scorer.py line 74): a run's
result is valid if its error is falsy and its scores dict non-empty. -/
def isValidRun (r : PostScore) : Bool :=
  !(pyTruthyStr r.error) && decide (r.scores ≠ [])

/-- Python `x or dflt` for an optional string where the result must be a
string (`None` and `""` both give the default). -/
def pyOrStr (x : Option String) (dflt : String) : String :=
  match x with
  | some s => if s = "" then dflt else s
  | none => dflt

/-- Python dict counter increment `d[c] = d.get(c, 0) + 1` preserving
insertion order. -/
def bumpCat (acc : List (String × Nat)) (c : String) : List (String × Nat) :=
  if acc.any (fun p => p.1 = c) then
    acc.map (fun p => if p.1 = c then (p.1, p.2 + 1) else p)
  else acc ++ [(c, 1)]

/-- The category vote count loop (llm_scorer.py lines 105-109). -/
def countCats (valid_runs : List PostScore) : List (String × Nat) :=
  valid_runs.foldl
    (fun acc r =>
      r.categories.foldl
        (fun acc2 c => if c ∈ TOPIC_CATEGORIES then bumpCat acc2 c else acc2) acc)
    []

/-- The sort key `lambda x: (-x[1], x[0])` (llm_scorer.py line 112) as a
total comparison: higher count first, then category name ascending. -/
def catKeyLe (x y : String × Nat) : Bool :=
  decide (y.2 < x.2) || (decide (x.2 = y.2) && decide (x.1 ≤ y.1))

/-- Insertion step of a comparator-based sort. -/
def insertSortedBy {α : Type} (le : α → α → Bool) (x : α) : List α → List α
  | [] => [x]
  | y :: ys => if le x y then x :: y :: ys else y :: insertSortedBy le x ys

/-- Python `sorted(l, key=...)` via insertion sort (the keys here are
distinct, so stability is immaterial). -/
def sortByKey {α : Type} (le : α → α → Bool) (l : List α) : List α :=
  l.foldr (insertSortedBy le) []

/-- Source `r.scores.get("podcast_worthy", 5.0)` (llm_scorer.py lines
119 and 123). -/
def pwOf (r : PostScore) : Rat :=
  (r.scores.lookup "podcast_worthy").getD 5

/-- Python `min(valid_runs, key=lambda r: abs(... - median_pw))`: the first
element attaining the minimal key (llm_scorer.py lines 121-124). -/
def bestRun (valid_runs : List PostScore) (median_pw : Rat) : PostScore :=
  match valid_runs with
  | [] => dfltPostScore
  | x :: xs =>
      xs.foldl
        (fun best r => if |pwOf r - median_pw| < |pwOf best - median_pw| then r else best)
        x

/-- The aggregation of one post's results across the ensemble runs
(llm_scorer.py lines 69-138).  The `values` comprehension keeps
`r.scores.get(dim, 5.0)` exactly for the runs whose scores dict contains the
dimension — `isinstance(r.scores.get(dim), (int, float))` is the
presence test, since validated scores are always floats. -/
def aggregatePost (run_results : List (List PostScore)) (first : List PostScore)
    (post_idx : Nat) : PostScore :=
  let runs_for_post := run_results.map (fun run => run.getD post_idx dfltPostScore)
  let valid_runs := runs_for_post.filter isValidRun
  if valid_runs = [] then
    let err_run := runs_for_post.headD dfltPostScore
    { post_id := (first.getD post_idx dfltPostScore).post_id,
      scores := [], categories := [], summary := "",
      error := some (pyOrStr err_run.error "No valid runs") }
  else
    let aggregated_scores := SCORING_DIMENSIONS.map (fun dim =>
      let values := valid_runs.filterMap (fun r => r.scores.lookup dim)
      (dim, if values = [] then (5 : Rat) else min 10 (max 1 (median values))))
    let sorted_cats := sortByKey catKeyLe (countCats valid_runs)
    let categories := (sorted_cats.take 3).map Prod.fst
    let median_pw := median (valid_runs.map pwOf)
    let best_run := bestRun valid_runs median_pw
    let summary := pyTake MAX_SUMMARY_LENGTH best_run.summary
    let why := strOrNone (pyStrip (pyTake MAX_SUMMARY_LENGTH
      (pyOrEmpty best_run.why_podcast_worthy)))
    { post_id := (first.getD post_idx dfltPostScore).post_id,
      scores := aggregated_scores, categories := categories,
      summary := summary, why_podcast_worthy := why }

/-- Function `_aggregate_ensemble_results` (llm_scorer.py lines 55-140). -/
def aggregateEnsembleResults (run_results : List (List PostScore)) : List PostScore :=
  match run_results with
  | [] => []
  | first :: _ => (List.range first.length).map (aggregatePost run_results first)

/-- An input post: a dict with "id" and "text" keys (`.get` defaults never
fire for the posts this pipeline builds, so a record suffices). -/
structure PostIn where
  id : String
  text : String
deriving DecidableEq

/-- The ensemble logic of `_score_batch` (llm_scorer.py lines 232-270) as a
function of the outcome of each of the `ENSEMBLE_RUNS` attempts of
`_score_batch_single_run` (an exception message, or a parsed run result).
`last_error` holds the error of the last run that raised; the exception
object is always truthy, so an empty message is still used as-is. -/
def scoreBatchFromRuns (posts : List PostIn)
    (runs : List (Except String (List PostScore))) : List PostScore :=
  if posts.length = 1 ∧ pyStrip ((posts.headD ⟨"unknown", ""⟩).text) = "" then
    [{ post_id := (posts.headD ⟨"unknown", ""⟩).id, scores := [], categories := [],
       summary := "", error := some "Empty post text" }]
  else
    let successful_runs := runs.filterMap (fun r =>
      match r with | .ok rr => some rr | .error _ => none)
    let last_error := (runs.filterMap (fun r =>
      match r with | .error e => some e | .ok _ => none)).getLast?
    if successful_runs = [] then
      posts.map (fun p =>
        { post_id := p.id, scores := [], categories := [], summary := "",
          error := some (last_error.getD "All ensemble runs failed") })
    else aggregateEnsembleResults successful_runs

/-! ## Final-score computation (worker.py lines 47-72, llm_scorer.py 650-688) -/

/-- Function `calculate_final_score` (worker.py lines 47-72). -/
def calculate_final_score (scores : List (String × Rat))
    (weights : List (String × Rat)) (novelty : Rat) : Rat :=
  let weighted_sum := (weights.map (fun dw => ((scores.lookup dw.1).getD 5) * dw.2)).sum
  let max_possible := (weights.map (fun dw => 10 * dw.2)).sum
  if max_possible = 0 then 0
  else
    let normalized := weighted_sum / max_possible * 10
    min 10 (max 0 (normalized * novelty))

/-- Method `LLMScorer.calculate_final_scores` (llm_scorer.py lines 650-688),
as a function of the weights, frequencies, novelty config and scored count
the instance loads once and caches.  NOTE: this path has no zero-divisor
guard; Python raises ZeroDivisionError when all seven effective weights are
0 (the corresponding theorem assumes a nonzero denominator, where `Rat`
division would otherwise silently give 0). -/
def calculate_final_scores (weights : List (String × Rat))
    (frequencies : List (String × Int)) (cfg : NovCfg) (tsc : Option Int)
    (results : List PostScore) : List PostScore :=
  results.map fun result =>
    if pyTruthyStr result.error || decide (result.scores = []) then result
    else
      let weighted_sum := (SCORING_DIMENSIONS.map (fun dim =>
        ((result.scores.lookup dim).getD 5) * ((weights.lookup dim).getD 1))).sum
      let max_possible := (SCORING_DIMENSIONS.map (fun dim =>
        10 * ((weights.lookup dim).getD 1))).sum
      let normalized := weighted_sum / max_possible * 10
      let novelty := calculate_novelty result.categories frequencies cfg tsc
      { result with final_score := some (min 10 (max 0 (normalized * novelty))) }

/-! ## Job orchestrator (src/scraper/src/worker.py)

The backing store is modelled as an explicit state record; each Supabase
table/RPC operation used by the recompute path becomes a pure state update.
Timestamps (`datetime.now`) are modelled as was-written flags, since no
claim depends on the wall-clock value. -/

-- Structural equality of JSON values (used for upsert conflict keys).
mutual
def JValue.beq : JValue → JValue → Bool
  | .null, .null => true
  | .bool a, .bool b => a == b
  | .num a, .num b => a == b
  | .str a, .str b => a == b
  | .arr xs, .arr ys => JValue.beqList xs ys
  | .obj fs, .obj gs => JValue.beqObj fs gs
  | _, _ => false
def JValue.beqList : List JValue → List JValue → Bool
  | [], [] => true
  | x :: xs, y :: ys => JValue.beq x y && JValue.beqList xs ys
  | _, _ => false
def JValue.beqObj : List (String × JValue) → List (String × JValue) → Bool
  | [], [] => true
  | (k, x) :: xs, (l, y) :: ys => k == l && JValue.beq x y && JValue.beqObj xs ys
  | _, _ => false
end

/-- A row of the `llm_scores` table as the recompute path reads it
(`select("id, post_id, scores, categories")`); `scores` and `categories`
are jsonb columns and may hold anything. -/
structure ScoreRow where
  id : Nat
  post_id : JValue
  scores : JValue
  categories : JValue

/-- A row of the `post_scores_staging` table. -/
structure StagingRow where
  job_id : String
  post_id : JValue
  weight_config_id : String
  final_score : Rat

/-- A row of the live `post_scores` ranking table. -/
structure RankRow where
  post_id : JValue
  weight_config_id : String
  final_score : Rat

/-- A row of the `background_jobs` table.  Optional integers model SQL NULL
(the Python code `or`-defaults them); the three timestamp columns are
modelled as was-written flags. -/
structure Job where
  id : String
  jtype : String
  status : String
  params : JValue
  created_at : Nat
  progress : Option Int := none
  total : Option Int := none
  retry_count : Option Int := none
  max_retries : Option Int := none
  error_message : Option String := none
  started_at : Bool := false
  completed_at : Bool := false
  last_retry_at : Bool := false

/-- The backing store.  `weight_configs` maps a config id to its `weights`
jsonb value; `settings` maps a settings key to its `value`; `promote_log`
records every invocation of the staged-to-live promotion RPC. -/
structure DB where
  jobs : List Job := []
  weight_configs : List (String × JValue) := []
  settings : List (String × JValue) := []
  topic_frequencies : List (String × Int) := []
  llm_scores : List ScoreRow := []
  staging : List StagingRow := []
  post_scores : List RankRow := []
  promote_log : List (String × String) := []

/-- Update every job row matching the id (worker.py
`.update({...}).eq("id", job_id)`). -/
def updJob (db : DB) (jobId : String) (f : Job → Job) : DB :=
  { db with jobs := db.jobs.map (fun j => if j.id = jobId then f j else j) }

/-- Read a job's status (worker.py `.select("status").eq("id", ...)`). -/
def jobStatus (db : DB) (jobId : String) : Option String :=
  (db.jobs.find? (fun j => j.id = jobId)).map Job.status

/-- Function `_cleanup_staging` (worker.py lines 289-300): delete every
staging row of the job. -/
def cleanupStaging (db : DB) (jobId : String) : DB :=
  { db with staging := db.staging.filter (fun r => ¬(r.job_id = jobId)) }

/-- Function `load_weight_config` (worker.py lines 75-116).  A missing row
is reported as the "not found" ValueError the source raises on empty
`.single()` data; non-numeric weight values are dropped by the
comprehension's isinstance filter (booleans count as numeric). -/
def loadWeightConfig (db : DB) (wcid : String) :
    Except String (List (String × Rat)) :=
  match db.weight_configs.lookup wcid with
  | none => .error ("Weight config " ++ wcid ++ " not found")
  | some wjson =>
    match wjson with
    | .obj wf =>
        let weights := wf.filterMap (fun p =>
          if pyIsNumber p.2 then some (p.1, pyNumVal p.2) else none)
        if weights = [] then .error ("No valid weights found in config " ++ wcid)
        else
          let known := weights.filter (fun p => p.1 ∈ SCORING_DIMENSIONS)
          .ok (if known.length < weights.length then known else weights)
    | _ => .error ("Invalid weights format in config " ++ wcid)

/-- The default novelty config dict of `load_novelty_config`
(worker.py lines 144-156). -/
def defaultNovJson : JValue :=
  .obj [("min_multiplier", .num (1/5)), ("max_multiplier", .num (3/2)),
        ("frequency_thresholds",
          .obj [("rare", .num 5), ("common", .num 30), ("very_common", .num 100)])]

/-- Function `load_novelty_config` (worker.py lines 119-156): the settings
value for key "novelty_config" when it is a non-empty dict, else the
default. -/
def loadNoveltyConfig (db : DB) : JValue :=
  match db.settings.lookup "novelty_config" with
  | some (.obj (f :: fs)) => .obj (f :: fs)
  | _ => defaultNovJson

/-- Python `int(x)` on a float: truncation toward zero. -/
def pyInt (q : Rat) : Int := q.num.tdiv (q.den : Int)

/-- The config-dict extraction performed inside `calculate_novelty`
(novelty.py lines 58-63): `config.get` with the documented defaults.  A
non-numeric config value would raise in Python's `float()`/`int()`; no
writer produces one and no claim exercises that case, so the embedding
falls back to the default there. -/
def novCfgOfJson (j : JValue) : NovCfg :=
  let fields := match j with | .obj fs => fs | _ => []
  let thr := match jGet fields "frequency_thresholds" with
    | some (.obj t) => t
    | _ => []
  let getNum := fun (fs : List (String × JValue)) (k : String) (d : Rat) =>
    match jGet fs k with
    | some v => if pyIsNumber v then pyNumVal v else d
    | none => d
  { min_multiplier := getNum fields "min_multiplier" (1/5),
    max_multiplier := getNum fields "max_multiplier" (3/2),
    rare := pyInt (getNum thr "rare" 5),
    common := pyInt (getNum thr "common" 30),
    very_common := pyInt (getNum thr "very_common" 100) }

/-- Constant `BATCH_SIZE` (worker.py line 37). -/
def BATCH_SIZE : Nat := 500

/-- Constant `CANCEL_CHECK_INTERVAL` (worker.py line 40). -/
def CANCEL_CHECK_INTERVAL : Nat := 5

/-- Constant `PROGRESS_UPDATE_INTERVAL` (worker.py line 41). -/
def PROGRESS_UPDATE_INTERVAL : Nat := 5

/-- The string categories of a score row's `categories` jsonb list
(worker.py line 234 / novelty.py line 68).  Non-string members are dropped
here: the writer paths only ever store validated category strings, and in
Python an unhashable member would raise on the frequency lookup. -/
def rowCategories (j : JValue) : List String :=
  match j with
  | .arr xs => xs.filterMap (fun x => match x with | .str s => some s | _ => none)
  | _ => []

/-- The numeric entries of a score row's `scores` jsonb dict (worker.py
line 233).  Non-numeric values are dropped here: the writer paths only
store validated floats, and in Python a non-numeric value would raise in
the weighted sum. -/
def rowScores (j : JValue) : List (String × Rat) :=
  match j with
  | .obj fs => fs.filterMap (fun p =>
      if pyIsNumber p.2 then some (p.1, pyNumVal p.2) else none)
  | _ => []

/-- Function `_process_batch` (worker.py lines 206-265): skip invalid rows,
compute novelty and final score, build staging rows. -/
def processBatchRows (batch : List ScoreRow) (jobId wcid : String)
    (weights : List (String × Rat)) (novJson : JValue)
    (freqs : List (String × Int)) (total : Int) : List StagingRow :=
  batch.filterMap fun row =>
    let ok := pyTruthy row.post_id
      && (match row.scores with | .obj _ => true | _ => false)
      && (match row.categories with | .arr _ => true | _ => false)
    if ok then
      let novelty := calculate_novelty (rowCategories row.categories) freqs
        (novCfgOfJson novJson) (some total)
      let final := calculate_final_score (rowScores row.scores) weights novelty
      some { job_id := jobId, post_id := row.post_id,
             weight_config_id := wcid, final_score := final }
    else none

/-- Row-level upsert into `post_scores_staging` with conflict key
`(job_id, post_id)` (worker.py lines 476-478). -/
def upsertStaging (staging : List StagingRow) (rows : List StagingRow) :
    List StagingRow :=
  rows.foldl
    (fun acc r =>
      if acc.any (fun s => s.job_id == r.job_id && JValue.beq s.post_id r.post_id) then
        acc.map (fun s =>
          if s.job_id == r.job_id && JValue.beq s.post_id r.post_id then r else s)
      else acc ++ [r])
    staging

/-- Insertion step of the `order("id")` sort of score rows. -/
def insertRowSorted (r : ScoreRow) : List ScoreRow → List ScoreRow
  | [] => [r]
  | y :: ys => if r.id ≤ y.id then r :: y :: ys else y :: insertRowSorted r ys

/-- The `llm_scores` rows in `order("id")` (worker.py line 454). -/
def sortScoresById (l : List ScoreRow) : List ScoreRow :=
  l.foldr insertRowSorted []

/-- The paged fetch `.order("id").range(offset, offset + BATCH_SIZE - 1)`
(worker.py lines 450-457). -/
def fetchScoreBatch (db : DB) (offset : Nat) : List ScoreRow :=
  ((sortScoresById db.llm_scores).drop offset).take BATCH_SIZE

/-- The external actor that flips the job's status to "cancelled".  The
claims speak of a cancellation landing "between cancellation checks": the
model takes the batch index before whose iteration (including the final,
loop-exiting one) the flip becomes visible; `none` means the job is never
cancelled. -/
def applyCancel (cancelAt : Option Nat) (bidx : Nat) (jobId : String) (db : DB) : DB :=
  if cancelAt = some bidx then
    updJob db jobId (fun j => { j with status := "cancelled" })
  else db

/-- The batch loop of `process_recompute_job` (worker.py lines 419-486),
with explicit fuel (each iteration advances `offset` by `BATCH_SIZE`, so
`total + 2` units always suffice).  Returns the store, the processed count,
and whether the loop observed a cancellation (worker.py lines 424-448). -/
def recomputeBatches (cancelAt : Option Nat) (jobId wcid : String)
    (weights : List (String × Rat)) (novJson : JValue)
    (freqs : List (String × Int)) (total : Nat) :
    Nat → DB → Nat → Nat → Nat → DB × Nat × Bool
  | 0, db, _, processed, _ => (db, processed, false)
  | fuel + 1, db, offset, processed, bidx =>
    let db1 := applyCancel cancelAt bidx jobId db
    if offset < total then
      if bidx % CANCEL_CHECK_INTERVAL = 0 ∧ jobStatus db1 jobId = some "cancelled" then
        let db2 := cleanupStaging db1 jobId
        let db3 := updJob db2 jobId (fun j =>
          { j with completed_at := true, progress := some (processed : Int) })
        (db3, processed, true)
      else
        let batch := fetchScoreBatch db1 offset
        if batch.isEmpty then (db1, processed, false)
        else
          let rows := processBatchRows batch jobId wcid weights novJson freqs (total : Int)
          let db2 := if rows.isEmpty then db1
            else { db1 with staging := upsertStaging db1.staging rows }
          let processed2 := if rows.isEmpty then processed else processed + rows.length
          let db3 := if !rows.isEmpty &&
              (decide (bidx % PROGRESS_UPDATE_INTERVAL = 0) || decide (total ≤ offset + BATCH_SIZE)) then
            updJob db2 jobId (fun j => { j with progress := some (processed2 : Int) })
          else db2
          recomputeBatches cancelAt jobId wcid weights novJson freqs total
            fuel db3 (offset + BATCH_SIZE) processed2 (bidx + 1)
    else (db1, processed, false)

/-- Modelled from the spec: the `apply_post_scores_from_staging` stored
procedure, invoked at worker.py lines 489-492 but whose SQL body is not
under src/.  Per the spec it is the atomic "apply staged scores for job X
under weight_config Y into live rankings" operation, and a StagedScore is
"a transient row existing only for the lifetime of one recompute job,
promoted or discarded atomically": the job's staging rows are upserted into
the live `post_scores` table on `(post_id, weight_config_id)` and removed
from staging, in one step. -/
def applyStagedScores (db : DB) (jobId wcid : String) : DB :=
  let staged := db.staging.filter (fun r => r.job_id = jobId)
  { db with
    post_scores := staged.foldl
      (fun acc r =>
        let rr : RankRow :=
          { post_id := r.post_id, weight_config_id := r.weight_config_id,
            final_score := r.final_score }
        if acc.any (fun p =>
            JValue.beq p.post_id r.post_id && p.weight_config_id == r.weight_config_id) then
          acc.map (fun p =>
            if JValue.beq p.post_id r.post_id && p.weight_config_id == r.weight_config_id
            then rr else p)
        else acc ++ [rr])
      db.post_scores,
    staging := db.staging.filter (fun r => ¬(r.job_id = jobId)),
    promote_log := db.promote_log ++ [(jobId, wcid)] }

/-- Function `process_recompute_job` (worker.py lines 360-544).  The two
parameter-validation ValueErrors (lines 373-381) are raised before the
status update (line 388) and before the `try` block (line 395), so they
leave the store untouched and are NOT caught by the `except ValueError`
handler (lines 504-521), which only sees failures from inside the `try`
(e.g. `load_weight_config`).  The network/unexpected-exception handlers
(lines 523-544) are unreachable in this model, whose store operations do
not fail; `_handle_transient_error` is modelled separately. -/
def processRecomputeJob (db : DB) (job : Job) (cancelAt : Option Nat) :
    DB × Except String Unit :=
  let jobId := job.id
  match job.params with
  | .obj pf =>
    (match jGet pf "weight_config_id" with
     | some (.str s) =>
       if s = "" then
         (db, .error ("Missing weight_config_id in job " ++ jobId ++ " params"))
       else
         let db1 := updJob db jobId (fun j =>
           { j with started_at := true, status := "running" })
         match loadWeightConfig db1 s with
         | .error e =>
             let db2 := cleanupStaging db1 jobId
             let db3 := updJob db2 jobId (fun j =>
               { j with completed_at := true, error_message := some e, status := "error" })
             (db3, .error e)
         | .ok weights =>
             let novJson := loadNoveltyConfig db1
             let freqs := db1.topic_frequencies
             let total := db1.llm_scores.length
             let db2 := updJob db1 jobId (fun j => { j with total := some (total : Int) })
             let res := recomputeBatches cancelAt jobId s weights novJson freqs total
               (total + 2) db2 0 0 0
             if res.2.2 then (res.1, .ok ())
             else
               let db3 := applyStagedScores res.1 jobId s
               let db4 := updJob db3 jobId (fun j =>
                 { j with completed_at := true, progress := some (res.2.1 : Int),
                          status := "completed" })
               (db4, .ok ())
     | _ => (db, .error ("Missing weight_config_id in job " ++ jobId ++ " params")))
  | _ => (db, .error ("Invalid params in job " ++ jobId))

/-- The pending-job selection of `poll_and_process` (worker.py lines
915-927): the oldest `created_at` among rows with status "pending" and a
matching type. -/
def selectOldestPending (db : DB) (jobTypes : List String) : Option Job :=
  (db.jobs.filter (fun j =>
    decide (j.status = "pending") && decide (j.jtype ∈ jobTypes))).foldl
    (fun acc j =>
      match acc with
      | none => some j
      | some b => if j.created_at < b.created_at then some j else some b)
    none

/-- Function `_handle_transient_error` (worker.py lines 303-357).  The
Python `or`-defaults make a NULL `retry_count` behave as 0 and a NULL or 0
`max_retries` behave as 3.  Note the exhausted branch stores the message
with its suffix UNTRUNCATED (unlike the other error paths' `[:1000]`). -/
def handleTransientError (db : DB) (jobId : String) (errorMsg : String) : DB :=
  let found := db.jobs.find? (fun j => j.id = jobId)
  let rc : Int := match found with
    | some j => (match j.retry_count with | some x => x | none => 0)
    | none => 0
  let mr : Int := match found with
    | some j => (match j.max_retries with | some x => if x = 0 then 3 else x | none => 3)
    | none => 3
  if rc < mr then
    updJob db jobId (fun j =>
      { j with error_message := some errorMsg, last_retry_at := true,
               retry_count := some (rc + 1), status := "pending" })
  else
    let db2 := cleanupStaging db jobId
    updJob db2 jobId (fun j =>
      { j with completed_at := true,
               error_message := some (errorMsg ++ " (Failed after " ++ toString mr ++ " retries)"),
               status := "error" })

/-! ## Concrete inputs for counterexamples and witnesses -/

/-- A recompute job whose params are not a dict (C1's failing input). -/
def jobC1 : Job :=
  { id := "job-1", jtype := "recompute_final_scores", status := "pending",
    params := .str "invalid", created_at := 0 }

/-- A recompute job whose params lack a weight_config_id. -/
def jobC1b : Job :=
  { id := "job-2", jtype := "recompute_final_scores", status := "pending",
    params := .obj [], created_at := 1 }

/-- A store holding only the two invalid-params jobs. -/
def dbC1 : DB := { jobs := [jobC1, jobC1b] }

/-- A well-formed recompute job (C2's concrete run). -/
def jobC2 : Job :=
  { id := "job-2", jtype := "recompute_final_scores", status := "pending",
    params := .obj [("weight_config_id", .str "wc-1")], created_at := 0 }

/-- A store with one weight config and one scored post. -/
def dbC2 : DB :=
  { jobs := [jobC2],
    weight_configs := [("wc-1", .obj [("drama", .num 1)])],
    llm_scores := [{ id := 1, post_id := .str "p1",
                     scores := .obj [("drama", .num 8)],
                     categories := .arr [.str "crime"] }] }

/-- A job with exhausted retries for the C3 counterexample. -/
def jobC3 : Job :=
  { id := "job-3", jtype := "recompute_final_scores", status := "running",
    params := .null, created_at := 0, retry_count := some 3, max_retries := some 3 }

/-- A store holding the exhausted job and one of its staging rows. -/
def dbC3 : DB :=
  { jobs := [jobC3],
    staging := [{ job_id := "job-3", post_id := .str "p1",
                  weight_config_id := "wc-1", final_score := 5 }] }

/-- A 1001-character error message (longer than the 1000-character cap used
by the truncating error paths). -/
def msgC3 : String := String.mk (List.replicate 1001 'x')

/-- Ensemble run results which both parse but carry per-post errors, with
distinct messages (C8's failing input). -/
def runsC8 : List (Except String (List PostScore)) :=
  [.ok [{ post_id := "p", scores := [], categories := [], summary := "",
          error := some "e0" }],
   .ok [{ post_id := "p", scores := [], categories := [], summary := "",
          error := some "e1" }]]

/-- The single-post batch for the C8 counterexample. -/
def postsC8 : List PostIn := [{ id := "p", text := "hello" }]

/-- A job one transient failure before exhaustion (for the C3 witness). -/
def jobC3w : Job :=
  { id := "job-4", jtype := "recompute_final_scores", status := "running",
    params := .null, created_at := 0, retry_count := some 2, max_retries := some 3 }

/-- A store holding the not-yet-exhausted job. -/
def dbC3w : DB := { jobs := [jobC3w] }

/-- A result with one perfect drama score (for the C6 witness). -/
def psW : PostScore :=
  { post_id := "p", scores := [("drama", 10)], categories := [], summary := "" }

/-- Three single-post runs scoring drama 3, 5 and 7 (for the C7 witness). -/
def runA : PostScore :=
  { post_id := "p", scores := [("drama", 3)], categories := [], summary := "" }

/-- Second ensemble run of the C7 witness. -/
def runB : PostScore :=
  { post_id := "p", scores := [("drama", 5)], categories := [], summary := "" }

/-- Third ensemble run of the C7 witness. -/
def runC : PostScore :=
  { post_id := "p", scores := [("drama", 7)], categories := [], summary := "" }


/-! # Theorems -/

/-! ### Helper lemmas for the novelty claims -/

lemma calculate_novelty_eq_noveltyOfAvg (categories : List String)
    (frequencies : List (String × Int)) (cfg : NovCfg) (tsc : Option Int)
    (hcat : categories ≠ []) (hfreq : frequencies ≠ [])
    (htsc : tsc = none ∨ ∃ n, tsc = some n ∧ 30 ≤ n) :
    calculate_novelty categories frequencies cfg tsc
      = noveltyOfAvg cfg (avgFreq categories frequencies) := by
  unfold calculate_novelty
  rw [if_neg hcat, if_neg hfreq, if_neg]
  rcases htsc with h | ⟨n, hn, h30⟩
  · simp [h]
  · simp only [hn]
    simp [COLD_START_THRESHOLD]
    omega

lemma piece2_le_max {M r c x : Rat} (hM : 1 ≤ M) (hrx : r < x) (hrc : r < c) :
    M - (x - r) / (c - r) * (M - 1) ≤ M := by
  have ht : 0 ≤ (x - r) / (c - r) :=
    div_nonneg (by linarith) (by linarith)
  nlinarith [mul_nonneg ht (by linarith : (0:Rat) ≤ M - 1)]

lemma one_le_piece2 {M r c x : Rat} (hM : 1 ≤ M) (hxc : x ≤ c) (hrc : r < c) :
    1 ≤ M - (x - r) / (c - r) * (M - 1) := by
  have ht : (x - r) / (c - r) ≤ 1 :=
    (div_le_one (by linarith)).mpr (by linarith)
  nlinarith [mul_le_mul_of_nonneg_right ht (by linarith : (0:Rat) ≤ M - 1)]

lemma piece2_anti {M r c a b : Rat} (hM : 1 ≤ M) (hab : a ≤ b) (hrc : r < c) :
    M - (b - r) / (c - r) * (M - 1) ≤ M - (a - r) / (c - r) * (M - 1) := by
  have hd : (0:Rat) < c - r := by linarith
  have ht : (a - r) / (c - r) ≤ (b - r) / (c - r) :=
    (div_le_div_iff_of_pos_right hd).mpr (by linarith)
  nlinarith [mul_le_mul_of_nonneg_right ht (by linarith : (0:Rat) ≤ M - 1)]

lemma piece3_le_one {m c v x : Rat} (hm : m ≤ 1) (hcx : c < x) (hcv : c < v) :
    1 - (x - c) / (v - c) * (1 - m) ≤ 1 := by
  have ht : 0 ≤ (x - c) / (v - c) :=
    div_nonneg (by linarith) (by linarith)
  nlinarith [mul_nonneg ht (by linarith : (0:Rat) ≤ 1 - m)]

lemma m_le_piece3 {m c v x : Rat} (hm : m ≤ 1) (hxv : x ≤ v) (hcv : c < v) :
    m ≤ 1 - (x - c) / (v - c) * (1 - m) := by
  have ht : (x - c) / (v - c) ≤ 1 :=
    (div_le_one (by linarith)).mpr (by linarith)
  nlinarith [mul_le_mul_of_nonneg_right ht (by linarith : (0:Rat) ≤ 1 - m)]

lemma piece3_anti {m c v a b : Rat} (hm : m ≤ 1) (hab : a ≤ b) (hcv : c < v) :
    1 - (b - c) / (v - c) * (1 - m) ≤ 1 - (a - c) / (v - c) * (1 - m) := by
  have hd : (0:Rat) < v - c := by linarith
  have ht : (a - c) / (v - c) ≤ (b - c) / (v - c) :=
    (div_le_div_iff_of_pos_right hd).mpr (by linarith)
  nlinarith [mul_le_mul_of_nonneg_right ht (by linarith : (0:Rat) ≤ 1 - m)]

lemma noveltyOfAvg_antitone (cfg : NovCfg)
    (hmin : cfg.min_multiplier ≤ 1) (hmax : 1 ≤ cfg.max_multiplier)
    (hrc : cfg.rare < cfg.common) (hcv : cfg.common < cfg.very_common)
    {a b : Rat} (hab : a ≤ b) :
    noveltyOfAvg cfg b ≤ noveltyOfAvg cfg a := by
  set m := cfg.min_multiplier with hm
  set M := cfg.max_multiplier with hM
  have hrcQ : (cfg.rare : Rat) < (cfg.common : Rat) := by exact_mod_cast hrc
  have hcvQ : (cfg.common : Rat) < (cfg.very_common : Rat) := by exact_mod_cast hcv
  have hd1 : ¬ (cfg.common - cfg.rare ≤ 0) := by omega
  have hd2 : ¬ (cfg.very_common - cfg.common ≤ 0) := by omega
  have hcast1 : ((cfg.common - cfg.rare : Int) : Rat) = (cfg.common : Rat) - (cfg.rare : Rat) := by
    push_cast; ring
  have hcast2 : ((cfg.very_common - cfg.common : Int) : Rat)
      = (cfg.very_common : Rat) - (cfg.common : Rat) := by
    push_cast; ring
  unfold noveltyOfAvg
  simp only [if_neg hd1, if_neg hd2, hcast1, hcast2]
  rcases le_or_lt b (cfg.rare : Rat) with hb1 | hb1
  · -- b in piece 1, hence a as well: both give M
    rw [if_pos hb1, if_pos (le_trans hab hb1)]
  · rw [if_neg (not_le.mpr hb1)]
    rcases le_or_lt b (cfg.common : Rat) with hb2 | hb2
    · -- b in piece 2
      rw [if_pos hb2]
      rcases le_or_lt a (cfg.rare : Rat) with ha1 | ha1
      · rw [if_pos ha1]
        exact piece2_le_max hmax hb1 hrcQ
      · rw [if_neg (not_le.mpr ha1), if_pos (le_trans hab hb2)]
        exact piece2_anti hmax hab hrcQ
    · rw [if_neg (not_le.mpr hb2)]
      rcases le_or_lt b (cfg.very_common : Rat) with hb3 | hb3
      · -- b in piece 3
        rw [if_pos hb3]
        rcases le_or_lt a (cfg.rare : Rat) with ha1 | ha1
        · rw [if_pos ha1]
          exact le_trans (piece3_le_one hmin hb2 hcvQ) hmax
        · rw [if_neg (not_le.mpr ha1)]
          rcases le_or_lt a (cfg.common : Rat) with ha2 | ha2
          · rw [if_pos ha2]
            exact le_trans (piece3_le_one hmin hb2 hcvQ) (one_le_piece2 hmax ha2 hrcQ)
          · rw [if_neg (not_le.mpr ha2), if_pos (le_trans hab hb3)]
            exact piece3_anti hmin hab hcvQ
      · -- b in piece 4: value m
        rw [if_neg (not_le.mpr hb3)]
        rcases le_or_lt a (cfg.rare : Rat) with ha1 | ha1
        · rw [if_pos ha1]; exact le_trans hmin hmax
        · rw [if_neg (not_le.mpr ha1)]
          rcases le_or_lt a (cfg.common : Rat) with ha2 | ha2
          · rw [if_pos ha2]
            exact le_trans hmin (one_le_piece2 hmax ha2 hrcQ)
          · rw [if_neg (not_le.mpr ha2)]
            rcases le_or_lt a (cfg.very_common : Rat) with ha3 | ha3
            · rw [if_pos ha3]
              exact m_le_piece3 hmin ha3 hcvQ
            · rw [if_neg (not_le.mpr ha3)]

/-- C4: with a valid configuration (min ≤ 1 ≤ max, strictly ascending
thresholds) and no cold start, `calculate_novelty` returns `max_multiplier`
whenever the average frequency is at most `rare`, returns `min_multiplier`
whenever it is at least `very_common`, and is monotonically non-increasing
as a function of the average frequency. -/
theorem c4_novelty_thresholds_and_antitone
    (categories : List String) (frequencies : List (String × Int)) (cfg : NovCfg)
    (tsc : Option Int)
    (hcat : categories ≠ []) (hfreq : frequencies ≠ [])
    (hmin : cfg.min_multiplier ≤ 1) (hmax : 1 ≤ cfg.max_multiplier)
    (hrc : cfg.rare < cfg.common) (hcv : cfg.common < cfg.very_common)
    (htsc : tsc = none ∨ ∃ n, tsc = some n ∧ 30 ≤ n) :
    (avgFreq categories frequencies ≤ (cfg.rare : Rat) →
      calculate_novelty categories frequencies cfg tsc = cfg.max_multiplier) ∧
    ((cfg.very_common : Rat) ≤ avgFreq categories frequencies →
      calculate_novelty categories frequencies cfg tsc = cfg.min_multiplier) ∧
    (∀ categories2 frequencies2, categories2 ≠ [] → frequencies2 ≠ [] →
      avgFreq categories frequencies ≤ avgFreq categories2 frequencies2 →
      calculate_novelty categories2 frequencies2 cfg tsc ≤
        calculate_novelty categories frequencies cfg tsc) := by
  have heq := calculate_novelty_eq_noveltyOfAvg categories frequencies cfg tsc hcat hfreq htsc
  have hrcQ : (cfg.rare : Rat) < (cfg.common : Rat) := by exact_mod_cast hrc
  have hcvQ : (cfg.common : Rat) < (cfg.very_common : Rat) := by exact_mod_cast hcv
  refine ⟨?_, ?_, ?_⟩
  · intro hle
    rw [heq]
    unfold noveltyOfAvg
    rw [if_pos hle]
  · intro hge
    rw [heq]
    unfold noveltyOfAvg
    have h1 : ¬ avgFreq categories frequencies ≤ (cfg.rare : Rat) := by
      push_neg; linarith
    have h2 : ¬ avgFreq categories frequencies ≤ (cfg.common : Rat) := by
      push_neg; linarith
    rw [if_neg h1, if_neg h2]
    rcases eq_or_lt_of_le hge with hEq | hlt
    · rw [if_pos hEq.symm.le, if_neg (by omega)]
      have hvc : (cfg.very_common : Rat) - (cfg.common : Rat) ≠ 0 := by linarith
      have hcast : ((cfg.very_common - cfg.common : Int) : Rat)
          = (cfg.very_common : Rat) - (cfg.common : Rat) := by push_cast; ring
      rw [← hEq, hcast, div_self hvc]
      ring
    · rw [if_neg (not_le.mpr hlt)]
  · intro categories2 frequencies2 hcat2 hfreq2 hle
    rw [heq, calculate_novelty_eq_noveltyOfAvg categories2 frequencies2 cfg tsc hcat2 hfreq2 htsc]
    exact noveltyOfAvg_antitone cfg hmin hmax hrc hcv hle

/-- Witness for C4 at a concrete input: with the default config and a single
category of frequency 3 (average 3 ≤ rare = 5), the multiplier is the
maximum 1.5. -/
theorem c4_novelty_thresholds_and_antitone_witness :
    calculate_novelty ["a"] [("a", 3)] defaultNovCfg none
      = defaultNovCfg.max_multiplier :=
  (c4_novelty_thresholds_and_antitone ["a"] [("a", 3)] defaultNovCfg none
    (by decide) (by decide) (by norm_num [defaultNovCfg]) (by norm_num [defaultNovCfg])
    (by decide) (by decide) (Or.inl rfl)).1
    (by norm_num [avgFreq, totalFreq, freqGet, defaultNovCfg, List.lookup])

/-- C5: `calculate_novelty` returns exactly 1.0 in each of the three neutral
cases: empty category list, empty frequency map (with non-empty categories),
and a known total scored count strictly below the cold-start threshold 30
(regardless of categories and frequencies). -/
theorem c5_novelty_neutral_cases :
    (∀ frequencies cfg tsc, calculate_novelty [] frequencies cfg tsc = 1) ∧
    (∀ categories frequencies cfg tsc, categories ≠ [] → frequencies = [] →
      calculate_novelty categories frequencies cfg tsc = 1) ∧
    (∀ categories frequencies cfg n, n < 30 →
      calculate_novelty categories frequencies cfg (some n) = 1) := by
  refine ⟨?_, ?_, ?_⟩
  · intro frequencies cfg tsc
    unfold calculate_novelty
    rw [if_pos rfl]
  · intro categories frequencies cfg tsc hcat hfreq
    unfold calculate_novelty
    rw [if_neg hcat, if_pos hfreq]
  · intro categories frequencies cfg n hn
    unfold calculate_novelty
    by_cases hcat : categories = []
    · rw [if_pos hcat]
    · rw [if_neg hcat]
      by_cases hfreq : frequencies = []
      · rw [if_pos hfreq]
      · rw [if_neg hfreq, if_pos]
        simp [COLD_START_THRESHOLD]
        omega

/-- Witness for C5 at concrete inputs covering all three neutral cases. -/
theorem c5_novelty_neutral_cases_witness :
    calculate_novelty [] [("a", 7)] defaultNovCfg none = 1 ∧
    calculate_novelty ["a"] [] defaultNovCfg none = 1 ∧
    calculate_novelty ["a"] [("a", 1000)] defaultNovCfg (some 10) = 1 :=
  ⟨c5_novelty_neutral_cases.1 [("a", 7)] defaultNovCfg none,
   c5_novelty_neutral_cases.2.1 ["a"] [] defaultNovCfg none (by decide) rfl,
   c5_novelty_neutral_cases.2.2 ["a"] [("a", 1000)] defaultNovCfg 10 (by decide)⟩

/-! ### Helper lemmas about the store model -/

lemma find?_map_upd (l : List Job) (jobId : String) (f : Job → Job)
    (hf : ∀ j, (f j).id = j.id) {j0 : Job}
    (h : l.find? (fun j => j.id = jobId) = some j0) :
    (l.map (fun j => if j.id = jobId then f j else j)).find?
      (fun j => j.id = jobId) = some (f j0) := by
  induction l with
  | nil => simp at h
  | cons a l ih =>
    by_cases ha : a.id = jobId
    · rw [List.find?_cons_of_pos _ (by simp [ha])] at h
      injection h with h
      subst h
      simp only [List.map_cons, if_pos ha]
      rw [List.find?_cons_of_pos _ (by simp [hf a, ha])]
    · rw [List.find?_cons_of_neg _ (by simp [ha])] at h
      simp only [List.map_cons, if_neg ha]
      rw [List.find?_cons_of_neg _ (by simp [ha])]
      exact ih h

lemma find?_updJob (db : DB) (jobId : String) (f : Job → Job)
    (hf : ∀ j, (f j).id = j.id) {j0 : Job}
    (h : db.jobs.find? (fun j => j.id = jobId) = some j0) :
    (updJob db jobId f).jobs.find? (fun j => j.id = jobId) = some (f j0) :=
  find?_map_upd db.jobs jobId f hf h

lemma mem_upd_id_status (l : List Job) (jobId : String) (f : Job → Job)
    (st : String) (hfst : ∀ j, (f j).status = st) :
    ∀ jj ∈ l.map (fun j => if j.id = jobId then f j else j),
      jj.id = jobId → jj.status = st := by
  intro jj hjj hid
  obtain ⟨j, hj, hjeq⟩ := List.mem_map.mp hjj
  by_cases h : j.id = jobId
  · rw [if_pos h] at hjeq
    rw [← hjeq]
    exact hfst j
  · rw [if_neg h] at hjeq
    rw [← hjeq] at hid
    exact absurd hid h

lemma foldl_oldest_result (l : List Job) (acc : Option Job) (jj : Job)
    (h : l.foldl
      (fun acc j =>
        match acc with
        | none => some j
        | some b => if j.created_at < b.created_at then some j else some b)
      acc = some jj) :
    jj ∈ l ∨ acc = some jj := by
  induction l generalizing acc with
  | nil => right; exact h
  | cons a l ih =>
    simp only [List.foldl_cons] at h
    rcases ih _ h with hm | hacc
    · left; exact List.mem_cons_of_mem _ hm
    · cases acc with
      | none =>
        left
        dsimp only at hacc
        injection hacc with e
        exact e ▸ List.mem_cons_self _ _
      | some b =>
        dsimp only at hacc
        by_cases hlt : a.created_at < b.created_at
        · rw [if_pos hlt] at hacc
          left
          injection hacc with e
          exact e ▸ List.mem_cons_self _ _
        · rw [if_neg hlt] at hacc
          right
          exact hacc

lemma selectOldestPending_mem (db : DB) (ts : List String) (jj : Job)
    (h : selectOldestPending db ts = some jj) :
    jj ∈ db.jobs ∧ jj.status = "pending" := by
  unfold selectOldestPending at h
  rcases foldl_oldest_result _ _ _ h with hm | hnone
  · have := List.mem_filter.mp hm
    refine ⟨this.1, ?_⟩
    have hb := this.2
    simp only [Bool.and_eq_true, decide_eq_true_eq] at hb
    exact hb.1
  · simp at hnone

lemma filter_not_filter_eq_nil (l : List StagingRow) (jid : String) :
    ((l.filter (fun r => ¬(r.job_id = jid))).filter (fun r => r.job_id = jid)) = [] := by
  induction l with
  | nil => rfl
  | cons a l ih =>
    by_cases h : a.job_id = jid
    · simp [List.filter, h, ih]
    · simp [List.filter, h, ih]

/-! ### C1: invalid recompute-job params (code bug) -/

/-- C1 (code bug): for a recompute job whose params are not a dict
(`jobC1`) or lack a string weight_config_id (`jobC1b`),
`process_recompute_job` raises its ValueError before any store write — the
two raises at worker.py lines 373-381 precede both the status update (line
388) and the `try` block (line 395) whose `except ValueError` handler is
the one that marks the job error and cleans staging.  The store is returned
untouched, the job keeps status "pending", and the poll loop's selection
picks the very same job again on the next cycle, so the job is retried
forever instead of being marked "error" immediately as the claim states. -/
theorem c1_invalid_params_job_never_marked_error :
    processRecomputeJob dbC1 jobC1 none
      = (dbC1, .error "Invalid params in job job-1") ∧
    processRecomputeJob dbC1 jobC1b none
      = (dbC1, .error "Missing weight_config_id in job job-2 params") ∧
    jobStatus dbC1 "job-1" = some "pending" ∧
    (selectOldestPending dbC1 ["recompute_final_scores"]).map Job.id
      = some "job-1" :=
  ⟨rfl, rfl, rfl, rfl⟩

/-! ### C2: cancellation between checks -/

/-- C2 counterexample: in `dbC2` the job's status flips to "cancelled" at
the batch boundary after batch 0 — between the cancellation check at batch
index 0 and the next check at index 5, which never happens because the loop
exits first — yet the worker promotes the staged scores into the live
rankings, changes a live ranking row, and overwrites the externally set
"cancelled" status with "completed".  This falsifies the claim that a job
cancelled between cancellation checks never has its staging promoted and
has zero live ranking rows changed. -/
theorem c2_counterexample_cancel_after_last_check_promotes :
    (processRecomputeJob dbC2 jobC2 (some 1)).1.promote_log
      = [("job-2", "wc-1")] ∧
    (processRecomputeJob dbC2 jobC2 (some 1)).1.post_scores.length = 1 ∧
    dbC2.post_scores = [] ∧
    jobStatus (processRecomputeJob dbC2 jobC2 (some 1)).1 "job-2"
      = some "completed" :=
  ⟨rfl, rfl, rfl, rfl⟩

/-! ### C3: transient-error retry policy -/

/-- C3 counterexample: with retries exhausted, `_handle_transient_error`
(worker.py lines 343-357) stores the accumulated message UNTRUNCATED: a
1001-character transient message is stored in full — 1026 characters with
the retry suffix — exceeding the fixed 1000-character cap every other error
path applies via `[:1000]`.  This falsifies the claim's "truncated to a
fixed length". -/
theorem c3_counterexample_error_message_not_truncated :
    ∃ j2, (handleTransientError dbC3 "job-3" msgC3).jobs.find?
        (fun j => j.id = "job-3") = some j2 ∧
      j2.status = "error" ∧
      ∃ em, j2.error_message = some em ∧ em.length = 1026 ∧ 1000 < em.length := by
  have hfind : dbC3.jobs.find? (fun j => j.id = "job-3") = some jobC3 := rfl
  have hunf : handleTransientError dbC3 "job-3" msgC3
      = updJob (cleanupStaging dbC3 "job-3") "job-3" (fun j =>
          { j with completed_at := true,
                   error_message := some (msgC3 ++ " (Failed after "
                     ++ toString (3 : Int) ++ " retries)"),
                   status := "error" }) := rfl
  rw [hunf]
  refine ⟨_, find?_updJob (cleanupStaging dbC3 "job-3") "job-3" (fun j =>
      { j with completed_at := true,
               error_message := some (msgC3 ++ " (Failed after "
                 ++ toString (3 : Int) ++ " retries)"),
               status := "error" }) (fun j => rfl) hfind, rfl, ?_⟩
  have h1 : msgC3.length = 1001 := by
    rw [show msgC3 = String.mk (List.replicate 1001 'x') from rfl,
      String.length_mk, List.length_replicate]
  have h2 : (msgC3 ++ " (Failed after " ++ toString (3 : Int) ++ " retries)").length
      = 1026 := by
    rw [String.length_append, String.length_append, String.length_append, h1]
    rfl
  refine ⟨_, rfl, h2, ?_⟩
  rw [h2]
  norm_num

/-- C3 (amended): a transient failure on a job with `retry_count = r` and
`max_retries = m > 0` resets the job to "pending" with retry_count `r + 1`
when `r < m` (so a job at `m - 1` becomes pending with retry_count `m`);
once `r` has reached `m`, it marks the job "error", cleans up all of its
staging rows, and the job can never be selected by the poll loop again (it
never returns to "pending").  The stored message is the accumulated message
with the `"(Failed after m retries)"` suffix, stored untruncated (the
original claim's "truncated to a fixed length" fails, per the
counterexample). -/
theorem c3_transient_retry_policy
    (db : DB) (job : Job) (msg : String) (r m : Int)
    (hfind : db.jobs.find? (fun j => j.id = job.id) = some job)
    (hrc : job.retry_count = some r) (hmr : job.max_retries = some m)
    (hm : 0 < m) :
    (r < m →
      ∃ j2, (handleTransientError db job.id msg).jobs.find?
          (fun j => j.id = job.id) = some j2 ∧
        j2.status = "pending" ∧ j2.retry_count = some (r + 1) ∧
        (r = m - 1 → j2.retry_count = some m)) ∧
    (m ≤ r →
      ∃ j2, (handleTransientError db job.id msg).jobs.find?
          (fun j => j.id = job.id) = some j2 ∧
        j2.status = "error" ∧
        j2.error_message
          = some (msg ++ " (Failed after " ++ toString m ++ " retries)") ∧
        (handleTransientError db job.id msg).staging.filter
          (fun s => s.job_id = job.id) = [] ∧
        (∀ ts jj, selectOldestPending (handleTransientError db job.id msg) ts
            = some jj → jj.id ≠ job.id)) := by
  have hm0 : ¬ (m = 0) := by omega
  have hunf : handleTransientError db job.id msg
      = if r < m then
          updJob db job.id (fun j =>
            { j with error_message := some msg, last_retry_at := true,
                     retry_count := some (r + 1), status := "pending" })
        else
          updJob (cleanupStaging db job.id) job.id (fun j =>
            { j with completed_at := true,
                     error_message := some (msg ++ " (Failed after " ++ toString m ++ " retries)"),
                     status := "error" }) := by
    unfold handleTransientError
    rw [hfind]
    simp only [hrc, hmr, if_neg hm0]
  constructor
  · intro hrm
    rw [hunf, if_pos hrm]
    refine ⟨_, find?_updJob db job.id (fun j =>
      { j with error_message := some msg, last_retry_at := true,
               retry_count := some (r + 1), status := "pending" })
      (fun j => rfl) hfind, rfl, rfl, ?_⟩
    intro hr1
    have he : r + 1 = m := by omega
    rw [he]
  · intro hmr'
    rw [hunf, if_neg (not_lt.mpr hmr')]
    refine ⟨_, find?_updJob (cleanupStaging db job.id) job.id (fun j =>
      { j with completed_at := true,
               error_message := some (msg ++ " (Failed after " ++ toString m ++ " retries)"),
               status := "error" })
      (fun j => rfl) hfind, rfl, rfl, ?_, ?_⟩
    · exact filter_not_filter_eq_nil db.staging job.id
    · intro ts jj hsel hid
      obtain ⟨hmem, hpend⟩ := selectOldestPending_mem _ ts jj hsel
      have := mem_upd_id_status (cleanupStaging db job.id).jobs job.id _
        "error" (fun j => rfl) jj hmem hid
      rw [this] at hpend
      exact absurd hpend (by decide)

/-- Witness for C3 at concrete inputs: applying the retry-policy theorem to
a job one transient failure away from exhaustion makes it pending with
retry_count = max_retries, and to an exhausted job marks it error with the
full suffixed message. -/
theorem c3_transient_retry_policy_witness :
    (∃ j2, (handleTransientError dbC3w "job-4" "boom").jobs.find?
        (fun j => j.id = "job-4") = some j2 ∧
      j2.status = "pending" ∧ j2.retry_count = some 3) ∧
    (∃ j2, (handleTransientError dbC3 "job-3" "boom").jobs.find?
        (fun j => j.id = "job-3") = some j2 ∧
      j2.status = "error" ∧
      j2.error_message = some "boom (Failed after 3 retries)") := by
  constructor
  · obtain ⟨h1, _⟩ := c3_transient_retry_policy dbC3w jobC3w "boom" 2 3 rfl rfl rfl
      (by norm_num)
    obtain ⟨j2, hf, hs, hrc, _⟩ := h1 (by norm_num)
    exact ⟨j2, hf, hs, hrc⟩
  · obtain ⟨_, h2⟩ := c3_transient_retry_policy dbC3 jobC3 "boom" 3 3 rfl rfl rfl
      (by norm_num)
    obtain ⟨j2, hf, hs, hmsg, _, _⟩ := h2 (by norm_num)
    refine ⟨j2, hf, hs, ?_⟩
    rw [hmsg]
    rfl

/-! ### C6: final-score bounds -/

/-- C6: the worker's `calculate_final_score` always returns a value in
[0, 10], returning exactly 0 whenever the weights sum to zero (instead of
dividing by zero); and the scorer's `calculate_final_scores` sets a
final_score in [0, 10] for every result without an error and with non-empty
scores, for any weight map whose effective denominator is non-zero (with an
all-zero effective weight map Python raises ZeroDivisionError on that path
rather than setting any score). -/
theorem c6_final_score_bounds
    (scores weights : List (String × Rat)) (novelty : Rat) :
    (0 ≤ calculate_final_score scores weights novelty ∧
     calculate_final_score scores weights novelty ≤ 10 ∧
     ((weights.map (fun dw => dw.2)).sum = 0 →
       calculate_final_score scores weights novelty = 0)) ∧
    (∀ (w2 : List (String × Rat)) (frequencies : List (String × Int))
        (cfg : NovCfg) (tsc : Option Int) (results : List PostScore),
      (SCORING_DIMENSIONS.map (fun dim => 10 * ((w2.lookup dim).getD 1))).sum ≠ 0 →
      ∀ r ∈ calculate_final_scores w2 frequencies cfg tsc results,
        pyTruthyStr r.error = false → r.scores ≠ [] →
        ∃ v, r.final_score = some v ∧ 0 ≤ v ∧ v ≤ 10) := by
  constructor
  · have hmp : (weights.map (fun dw => 10 * dw.2)).sum
        = 10 * (weights.map (fun dw => dw.2)).sum := by
      rw [← List.sum_map_mul_left]
    simp only [calculate_final_score]
    by_cases h : (weights.map (fun dw => 10 * dw.2)).sum = 0
    · rw [if_pos h]
      exact ⟨le_refl 0, by norm_num, fun _ => rfl⟩
    · rw [if_neg h]
      refine ⟨le_min (by norm_num) (le_max_left 0 _), min_le_left _ _, ?_⟩
      intro hw
      exact absurd (by rw [hmp, hw, mul_zero]) h
  · intro w2 frequencies cfg tsc results hden r hr herr hsc
    simp only [calculate_final_scores] at hr
    obtain ⟨r0, hr0, hmap⟩ := List.mem_map.mp hr
    by_cases hcond : (pyTruthyStr r0.error || decide (r0.scores = [])) = true
    · rw [if_pos hcond] at hmap
      subst hmap
      rcases Bool.or_eq_true _ _ |>.mp hcond with h1 | h1
      · rw [herr] at h1
        cases h1
      · exact absurd (of_decide_eq_true h1) hsc
    · rw [if_neg hcond] at hmap
      subst hmap
      exact ⟨_, rfl, le_min (by norm_num) (le_max_left 0 _), min_le_left _ _⟩

/-- Witness for C6 at concrete inputs: a single "drama"-weighted config and
one result with a perfect drama score. -/
theorem c6_final_score_bounds_witness :
    (0 ≤ calculate_final_score [("drama", 8)] [("drama", 1)] 1 ∧
     calculate_final_score [("drama", 8)] [("drama", 1)] 1 ≤ 10) ∧
    (∃ v, ((calculate_final_scores [("drama", 1)] [] defaultNovCfg none
        [psW]).headD dfltPostScore).final_score = some v ∧ 0 ≤ v ∧ v ≤ 10) := by
  have h := c6_final_score_bounds [("drama", 8)] [("drama", 1)] 1
  refine ⟨⟨h.1.1, h.1.2.1⟩, ?_⟩
  refine h.2 [("drama", 1)] [] defaultNovCfg none [psW]
    (by simp [SCORING_DIMENSIONS, List.lookup]; norm_num) _ ?_ rfl (by decide)
  exact List.mem_of_mem_head? (by rfl)

/-! ### Association-list lemmas for the validators -/

lemma lookup_map_self {β : Type} (l : List String) (f : String → β) (k : String)
    (hk : k ∈ l) : (l.map (fun d => (d, f d))).lookup k = some (f k) := by
  induction l with
  | nil => cases hk
  | cons a l ih =>
    by_cases h : k = a
    · subst h
      simp [List.lookup]
    · have hne : (k == a) = false := by simp [h]
      simp only [List.map_cons, List.lookup, hne]
      exact ih (List.mem_cons.mp hk |>.resolve_left h)

lemma lookup_map_replace (d : List (String × Rat)) (k k' : String) (v : Rat)
    (hne : k' ≠ k) :
    (d.map (fun p => if p.1 = k then (k, v) else p)).lookup k' = d.lookup k' := by
  induction d with
  | nil => rfl
  | cons p d ih =>
    obtain ⟨pk, pv⟩ := p
    simp only [List.map_cons]
    by_cases h : pk = k
    · subst h
      rw [if_pos rfl, List.lookup_cons, List.lookup_cons]
      have h1 : (k' == pk) = false := by simp [hne]
      rw [h1]
      exact ih
    · rw [if_neg h, List.lookup_cons, List.lookup_cons]
      cases hkp : (k' == pk)
      · exact ih
      · rfl

lemma lookup_append_single (d : List (String × Rat)) (k k' : String) (v : Rat)
    (hne : k' ≠ k) :
    (d ++ [(k, v)]).lookup k' = d.lookup k' := by
  induction d with
  | nil =>
    have h1 : (k' == k) = false := by simp [hne]
    simp only [List.nil_append, List.lookup_cons, h1, List.lookup]
  | cons p d ih =>
    obtain ⟨pk, pv⟩ := p
    simp only [List.cons_append]
    rw [List.lookup_cons, List.lookup_cons]
    cases hkp : (k' == pk)
    · exact ih
    · rfl

lemma lookup_dictSet_self (d : List (String × Rat)) (k : String) (v : Rat)
    (hmem : d.any (fun p => p.1 = k) = true) :
    (dictSet d k v).lookup k = some v := by
  unfold dictSet
  rw [if_pos hmem]
  induction d with
  | nil => simp at hmem
  | cons p d ih =>
    obtain ⟨pk, pv⟩ := p
    simp only [List.map_cons]
    by_cases h : pk = k
    · subst h
      rw [if_pos rfl, List.lookup_cons]
      simp
    · rw [if_neg h, List.lookup_cons]
      have hne : (k == pk) = false := by simp [Ne.symm h]
      rw [hne]
      apply ih
      simp only [List.any_cons, Bool.or_eq_true, decide_eq_true_eq] at hmem
      rcases hmem with h1 | h1
      · exact absurd h1 h
      · exact h1

lemma lookup_dictSet_other (d : List (String × Rat)) (k k' : String) (v : Rat)
    (hne : k' ≠ k) :
    (dictSet d k v).lookup k' = d.lookup k' := by
  unfold dictSet
  by_cases hmem : d.any (fun p => p.1 = k) = true
  · rw [if_pos hmem]
    exact lookup_map_replace d k k' v hne
  · rw [if_neg hmem]
    exact lookup_append_single d k k' v hne

lemma validatedScores_lookup (sf : List (String × JValue)) (dim : String)
    (hdim : dim ∈ SCORING_DIMENSIONS) :
    (validatedScores sf).lookup dim = some (validDim (jGet sf dim)) := by
  have hbase := lookup_map_self SCORING_DIMENSIONS
    (fun d => validDim (jGet sf d)) dim hdim
  unfold validatedScores applyPwBlock
  cases hpw : jGet sf "podcast_worthy" with
  | none => exact hbase
  | some v =>
    dsimp only
    by_cases hc : pyIsNumber v ∧ 1 ≤ pyNumVal v ∧ pyNumVal v ≤ 10
    · rw [if_pos hc]
      by_cases hd : dim = "podcast_worthy"
      · subst hd
        rw [lookup_dictSet_self]
        · rw [hpw]
          simp only [validDim]
          rw [if_pos hc]
        · apply List.any_eq_true.mpr
          exact ⟨("podcast_worthy", validDim (jGet sf "podcast_worthy")),
            List.mem_map.mpr ⟨"podcast_worthy", by decide, rfl⟩, by simp⟩
      · rw [lookup_dictSet_other _ _ _ _ hd]
        exact hbase
    · rw [if_neg hc]
      exact hbase

/-! ### C9 and C10: score validation -/

lemma pyTake_length_le (n : Nat) (s : String) : (pyTake n s).length ≤ n := by
  rw [pyTake, String.length_mk, List.length_take]
  exact min_le_left _ _

lemma length_dropWhile_le' {α : Type} (p : α → Bool) (l : List α) :
    (l.dropWhile p).length ≤ l.length := by
  induction l with
  | nil => simp
  | cons a l ih =>
    rw [List.dropWhile_cons]
    split
    · exact ih.trans (by simp)
    · simp

lemma pyStrip_length_le (s : String) : (pyStrip s).length ≤ s.length := by
  rw [pyStrip, String.length_mk, List.length_reverse]
  calc ((s.data.dropWhile Char.isWhitespace).reverse.dropWhile Char.isWhitespace).length
      ≤ (s.data.dropWhile Char.isWhitespace).reverse.length :=
        length_dropWhile_le' _ _
    _ = (s.data.dropWhile Char.isWhitespace).length := List.length_reverse _
    _ ≤ s.data.length := length_dropWhile_le' _ _

lemma getScoresDict_ok (data : List (String × JValue))
    (hs : jGet data "scores" = none ∨ ∃ sf, jGet data "scores" = some (.obj sf)) :
    ∃ sf, getScoresDict data = .ok sf := by
  rcases hs with h | ⟨sf, h⟩
  · exact ⟨[], by simp [getScoresDict, jGetD, h]⟩
  · exact ⟨sf, by simp [getScoresDict, jGetD, h]⟩

lemma getCategories_ok (data : List (String × JValue))
    (hc : jGet data "categories" = none ∨
      ∃ xs, jGet data "categories" = some (.arr xs)) :
    ∃ cl, getCategories data = .ok cl ∧ ∀ c ∈ cl, c ∈ TOPIC_CATEGORIES := by
  have harr : ∃ xs, jGetD data "categories" (.arr []) = .arr xs := by
    rcases hc with h | ⟨xs, h⟩
    · exact ⟨[], by simp [jGetD, h]⟩
    · exact ⟨xs, by simp [jGetD, h]⟩
  obtain ⟨xs, hxs⟩ := harr
  refine ⟨xs.filterMap (fun j =>
      match j with
      | .str s => if s ∈ TOPIC_CATEGORIES then some s else none
      | _ => none),
    by simp [getCategories, hxs, pyIterElems], ?_⟩
  intro c hc'
  obtain ⟨j, _, hj⟩ := List.mem_filterMap.mp hc'
  cases j with
  | str s =>
    by_cases hmem : s ∈ TOPIC_CATEGORIES
    · simp only [if_pos hmem] at hj
      injection hj with hj
      exact hj ▸ hmem
    · simp only [if_neg hmem] at hj
      cases hj
  | null => cases hj
  | bool b => cases hj
  | num q => cases hj
  | arr a => cases hj
  | obj o => cases hj

lemma getSummarySingle_ok (data : List (String × JValue))
    (hsum : jGet data "summary" = none ∨ ∃ s, jGet data "summary" = some (.str s)) :
    ∃ s0, getSummarySingle data = .ok (pyTake MAX_SUMMARY_LENGTH s0) := by
  rcases hsum with h | ⟨s, h⟩
  · exact ⟨"", by simp [getSummarySingle, jGetD, h]⟩
  · exact ⟨s, by simp [getSummarySingle, jGetD, h]⟩

lemma getWhy_ok (data : List (String × JValue))
    (hwhy : jGet data "why_podcast_worthy" = none ∨
      jGet data "why_podcast_worthy" = some .null ∨
      ∃ s, jGet data "why_podcast_worthy" = some (.str s)) :
    ∃ ow, getWhy data = .ok ow ∧
      ∀ w, ow = some w → w.length ≤ MAX_SUMMARY_LENGTH := by
  rcases hwhy with h | h | ⟨s, h⟩
  · exact ⟨none, by simp [getWhy, jGetD, h, pyTruthy], fun w hw => by cases hw⟩
  · exact ⟨none, by simp [getWhy, jGetD, h, pyTruthy], fun w hw => by cases hw⟩
  · by_cases hempty : s = ""
    · refine ⟨none, ?_, fun w hw => by cases hw⟩
      subst hempty
      simp [getWhy, jGetD, h, pyTruthy]
    · refine ⟨strOrNone (pyStrip (pyTake MAX_SUMMARY_LENGTH s)), ?_, ?_⟩
      · have ht : pyTruthy (.str s) = true := by simp [pyTruthy, hempty]
        simp [getWhy, jGetD, h, ht]
      · intro w hw
        unfold strOrNone at hw
        split at hw
        · cases hw
        · injection hw with hw
          rw [← hw]
          exact (pyStrip_length_le _).trans (pyTake_length_le _ _)

lemma validateSinglePost_eq (post_id raw : String) (data : List (String × JValue))
    {sf : List (String × JValue)} {cl : List String} {s1 : String}
    {ow : Option String}
    (h1 : getScoresDict data = .ok sf) (h2 : getCategories data = .ok cl)
    (h3 : getSummarySingle data = .ok s1) (h4 : getWhy data = .ok ow) :
    validateSinglePost post_id raw data
      = .ok { post_id := post_id, scores := validatedScores sf, categories := cl,
              summary := s1, why_podcast_worthy := ow,
              raw_response := some raw } := by
  simp [validateSinglePost, h1, h2, h3, h4]
  rfl

lemma validateBatchItem_eq (post_id : String) (item : List (String × JValue))
    {sf : List (String × JValue)} {cl : List String} {s1 : String}
    {ow : Option String}
    (h1 : getScoresDict item = .ok sf) (h2 : getCategories item = .ok cl)
    (h3 : getSummaryBatch item = .ok s1) (h4 : getWhy item = .ok ow) :
    validateBatchItem post_id item
      = .ok { post_id := post_id, scores := validatedScores sf, categories := cl,
              summary := s1, why_podcast_worthy := ow } := by
  simp [validateBatchItem, h1, h2, h3, h4]
  rfl

/-- C9: score validation (both scoring paths) substitutes exactly 5.0 for a
known dimension whose value is a non-numeric JSON value or a number outside
[1, 10], coerces an in-range number to its float value, and filters the
categories list to the fixed vocabulary, silently dropping unknown entries
with no exception raised and no error field set.  (Per the source's
`isinstance(s, (int, float))`, Python booleans count as numeric with values
1 and 0, so `pyIsNumber` is the source's numeric test.) -/
theorem c9_score_validation_defaults
    (post_id raw : String) (data sf : List (String × JValue)) (cats : List JValue)
    (hs : jGet data "scores" = some (.obj sf))
    (hc : jGet data "categories" = some (.arr cats))
    (hsum : jGet data "summary" = none)
    (hwhy : jGet data "why_podcast_worthy" = none)
    (dim : String) (hdim : dim ∈ SCORING_DIMENSIONS) :
    ∃ ps, validateSinglePost post_id raw data = .ok ps ∧
      validateBatchItem post_id data = .ok { ps with raw_response := none } ∧
      ps.error = none ∧
      (∀ q, jGet sf dim = some (.num q) → 1 ≤ q → q ≤ 10 →
        ps.scores.lookup dim = some q) ∧
      (∀ q, jGet sf dim = some (.num q) → (q < 1 ∨ 10 < q) →
        ps.scores.lookup dim = some 5) ∧
      (∀ v, jGet sf dim = some v → pyIsNumber v = false →
        ps.scores.lookup dim = some 5) ∧
      (jGet sf dim = none → ps.scores.lookup dim = some 5) ∧
      (∀ c ∈ ps.categories, c ∈ TOPIC_CATEGORIES) := by
  obtain ⟨cl, hcl, hclsub⟩ := getCategories_ok data (Or.inr ⟨cats, hc⟩)
  have h1 : getScoresDict data = .ok sf := by simp [getScoresDict, jGetD, hs]
  have h3 : getSummarySingle data = .ok (pyTake MAX_SUMMARY_LENGTH "") := by
    simp [getSummarySingle, jGetD, hsum]
  have h3b : getSummaryBatch data = .ok "" := by
    simp [getSummaryBatch, jGetD, hwhy, hsum, pyTruthy]
  have h4 : getWhy data = .ok none := by
    simp [getWhy, jGetD, hwhy, pyTruthy]
  refine ⟨_, validateSinglePost_eq post_id raw data h1 hcl h3 h4, ?_, rfl,
    ?_, ?_, ?_, ?_, hclsub⟩
  · rw [validateBatchItem_eq post_id data h1 hcl h3b h4]
    rfl
  · intro q hq h1q hq10
    rw [validatedScores_lookup sf dim hdim, hq]
    simp only [validDim]
    rw [if_pos ⟨rfl, by simpa [pyNumVal] using h1q, by simpa [pyNumVal] using hq10⟩]
    rfl
  · intro q hq hout
    rw [validatedScores_lookup sf dim hdim, hq]
    simp only [validDim]
    rw [if_neg]
    rintro ⟨-, hlo, hhi⟩
    simp only [pyNumVal] at hlo hhi
    rcases hout with h | h
    · exact absurd hlo (not_le.mpr h)
    · exact absurd hhi (not_le.mpr h)
  · intro v hv hnum
    rw [validatedScores_lookup sf dim hdim, hv]
    simp only [validDim]
    rw [if_neg]
    rintro ⟨hn, -⟩
    rw [hnum] at hn
    cases hn
  · intro hnone
    rw [validatedScores_lookup sf dim hdim, hnone]
    rfl

/-- Witness for C9 at a concrete parsed response: an out-of-range drama
score becomes 5, a string absurdity score becomes 5, an in-range news_value
is coerced, and the unknown category "bogus" is dropped while "crime"
survives. -/
theorem c9_score_validation_defaults_witness :
    ∃ ps, validateSinglePost "p" "r"
        [("scores", .obj [("drama", .num 12), ("absurdity", .str "x"),
                          ("news_value", .num 7)]),
         ("categories", .arr [.str "crime", .str "bogus", .num 3])] = .ok ps ∧
      ps.scores.lookup "drama" = some 5 ∧
      ps.scores.lookup "absurdity" = some 5 ∧
      ps.scores.lookup "news_value" = some 7 ∧
      (∀ c ∈ ps.categories, c ∈ TOPIC_CATEGORIES) := by
  obtain ⟨ps, hok, _, _, hq1, hout, hnn, _, hcats⟩ :=
    c9_score_validation_defaults "p" "r"
      [("scores", .obj [("drama", .num 12), ("absurdity", .str "x"),
                        ("news_value", .num 7)]),
       ("categories", .arr [.str "crime", .str "bogus", .num 3])]
      [("drama", .num 12), ("absurdity", .str "x"), ("news_value", .num 7)]
      [.str "crime", .str "bogus", .num 3]
      rfl rfl rfl rfl "drama" (by decide)
  obtain ⟨ps2, hok2, _, _, _, _, hnn2, _, _⟩ :=
    c9_score_validation_defaults "p" "r"
      [("scores", .obj [("drama", .num 12), ("absurdity", .str "x"),
                        ("news_value", .num 7)]),
       ("categories", .arr [.str "crime", .str "bogus", .num 3])]
      [("drama", .num 12), ("absurdity", .str "x"), ("news_value", .num 7)]
      [.str "crime", .str "bogus", .num 3]
      rfl rfl rfl rfl "absurdity" (by decide)
  obtain ⟨ps3, hok3, _, _, hq3, _, _, _, _⟩ :=
    c9_score_validation_defaults "p" "r"
      [("scores", .obj [("drama", .num 12), ("absurdity", .str "x"),
                        ("news_value", .num 7)]),
       ("categories", .arr [.str "crime", .str "bogus", .num 3])]
      [("drama", .num 12), ("absurdity", .str "x"), ("news_value", .num 7)]
      [.str "crime", .str "bogus", .num 3]
      rfl rfl rfl rfl "news_value" (by decide)
  rw [hok] at hok2 hok3
  injection hok2 with hok2
  injection hok3 with hok3
  refine ⟨ps, hok, hout 12 rfl (by norm_num), ?_, ?_, hcats⟩
  · rw [← hok2] at hnn2
    exact hnn2 (.str "x") rfl rfl
  · rw [← hok3] at hq3
    exact hq3 7 rfl (by norm_num) (by norm_num)

/-- C10 counterexample: a parsed response whose "scores" field is JSON null
raises in both validators (Python: `None.get(dim)` → AttributeError), and a
null "summary" raises TypeError in the single-post path (`None[:500]`),
falsifying the claim that the validation step never raises for any JSON
mapping including null fields. -/
theorem c10_counterexample_null_fields_raise :
    validateSinglePost "p1" "raw" [("scores", JValue.null)]
      = .error "AttributeError" ∧
    validateBatchItem "p1" [("scores", JValue.null)]
      = .error "AttributeError" ∧
    validateSinglePost "p2" "raw" [("summary", JValue.null)]
      = .error "TypeError" :=
  ⟨rfl, rfl, rfl⟩

/-- C10 (amended): for every parsed response whose fields, when present,
have the expected types — "scores" an object, "categories" an array,
"summary" a string and "why_podcast_worthy" a string or null — the
single-post validator never raises: it returns a best-effort result whose
error field is unset and whose summary and "why" strings are truncated to
500 characters.  (Outside this domain the validator can raise, as the
counterexample's null "scores"/"summary" fields show.) -/
theorem c10_validator_total_on_wellformed_fields
    (post_id raw : String) (data : List (String × JValue))
    (hs : jGet data "scores" = none ∨ ∃ sf, jGet data "scores" = some (.obj sf))
    (hc : jGet data "categories" = none ∨
      ∃ xs, jGet data "categories" = some (.arr xs))
    (hsum : jGet data "summary" = none ∨ ∃ s, jGet data "summary" = some (.str s))
    (hwhy : jGet data "why_podcast_worthy" = none ∨
      jGet data "why_podcast_worthy" = some .null ∨
      ∃ s, jGet data "why_podcast_worthy" = some (.str s)) :
    ∃ ps, validateSinglePost post_id raw data = .ok ps ∧
      ps.post_id = post_id ∧ ps.error = none ∧
      ps.summary.length ≤ MAX_SUMMARY_LENGTH ∧
      (∀ w, ps.why_podcast_worthy = some w → w.length ≤ MAX_SUMMARY_LENGTH) := by
  obtain ⟨sf, h1⟩ := getScoresDict_ok data hs
  obtain ⟨cl, h2, -⟩ := getCategories_ok data hc
  obtain ⟨s0, h3⟩ := getSummarySingle_ok data hsum
  obtain ⟨ow, h4, hwlen⟩ := getWhy_ok data hwhy
  exact ⟨_, validateSinglePost_eq post_id raw data h1 h2 h3 h4, rfl, rfl,
    pyTake_length_le _ _, hwlen⟩

/-- Witness for C10 at a concrete well-typed response. -/
theorem c10_validator_total_on_wellformed_fields_witness :
    ∃ ps, validateSinglePost "p" "r"
        [("scores", .obj [("drama", .num 7)]),
         ("categories", .arr [.str "crime", .str "bogus"]),
         ("summary", .str "hello"),
         ("why_podcast_worthy", .str "fun")] = .ok ps ∧
      ps.error = none ∧ ps.summary.length ≤ MAX_SUMMARY_LENGTH := by
  obtain ⟨ps, hok, -, herr, hlen, -⟩ :=
    c10_validator_total_on_wellformed_fields "p" "r"
      [("scores", .obj [("drama", .num 7)]),
       ("categories", .arr [.str "crime", .str "bogus"]),
       ("summary", .str "hello"),
       ("why_podcast_worthy", .str "fun")]
      (Or.inr ⟨_, rfl⟩) (Or.inr ⟨_, rfl⟩) (Or.inr ⟨_, rfl⟩)
      (Or.inr (Or.inr ⟨_, rfl⟩))
  exact ⟨ps, hok, herr, hlen⟩

/-! ### C7 and C8: ensemble aggregation -/

lemma median_singleton (v : Rat) : median [v] = v := by
  simp [median, sortAsc, insertSorted]

lemma aggregate_getElem? (run_results : List (List PostScore))
    (first : List PostScore) (rest : List (List PostScore))
    (h : run_results = first :: rest) (post_idx : Nat)
    (hidx : post_idx < first.length) :
    (aggregateEnsembleResults run_results)[post_idx]?
      = some (aggregatePost run_results first post_idx) := by
  subst h
  unfold aggregateEnsembleResults
  rw [List.getElem?_map, List.getElem?_range hidx]
  rfl

/-- C7: per known dimension, ensemble aggregation takes the median of the
dimension's values across the valid runs — those that parsed (they are the
aggregation's input) and carry no per-post error and non-empty scores —
clamped to [1, 10]: in general the aggregated value is the clamped median
of the valid runs' values for the dimension; with exactly one valid run
carrying the dimension in range, that run's value is used directly; and
with values [3, 5, 7] the aggregated value is 5. -/
theorem c7_ensemble_median
    (run_results : List (List PostScore)) (first : List PostScore)
    (rest : List (List PostScore)) (hrr : run_results = first :: rest)
    (post_idx : Nat) (hidx : post_idx < first.length)
    (dim : String) (hdim : dim ∈ SCORING_DIMENSIONS)
    (hvalid : (run_results.map (fun run => run.getD post_idx dfltPostScore)).filter
        isValidRun ≠ []) :
    ∃ agg, (aggregateEnsembleResults run_results)[post_idx]? = some agg ∧
      (((run_results.map (fun run => run.getD post_idx dfltPostScore)).filter
          isValidRun).filterMap (fun r => r.scores.lookup dim) ≠ [] →
        agg.scores.lookup dim = some (min 10 (max 1 (median
          (((run_results.map (fun run => run.getD post_idx dfltPostScore)).filter
            isValidRun).filterMap (fun r => r.scores.lookup dim)))))) ∧
      (∀ v : Rat,
        ((run_results.map (fun run => run.getD post_idx dfltPostScore)).filter
          isValidRun).filterMap (fun r => r.scores.lookup dim) = [v] →
        1 ≤ v → v ≤ 10 → agg.scores.lookup dim = some v) ∧
      (((run_results.map (fun run => run.getD post_idx dfltPostScore)).filter
          isValidRun).filterMap (fun r => r.scores.lookup dim) = [3, 5, 7] →
        agg.scores.lookup dim = some 5) := by
  refine ⟨aggregatePost run_results first post_idx,
    aggregate_getElem? run_results first rest hrr post_idx hidx, ?_, ?_, ?_⟩
  · intro hv
    unfold aggregatePost
    rw [if_neg hvalid]
    rw [lookup_map_self SCORING_DIMENSIONS _ dim hdim]
    rw [if_neg hv]
  · intro v hv h1v hv10
    unfold aggregatePost
    rw [if_neg hvalid]
    rw [lookup_map_self SCORING_DIMENSIONS _ dim hdim]
    rw [hv, if_neg (by simp), median_singleton]
    rw [max_eq_right h1v, min_eq_right hv10]
  · intro hv
    unfold aggregatePost
    rw [if_neg hvalid]
    rw [lookup_map_self SCORING_DIMENSIONS _ dim hdim]
    rw [hv, if_neg (by simp)]
    norm_num [median, sortAsc, insertSorted]

/-- Witness for C7 at a concrete ensemble: three valid runs scoring drama
[3, 5, 7] aggregate to 5. -/
theorem c7_ensemble_median_witness :
    ∃ agg, (aggregateEnsembleResults [[runA], [runB], [runC]])[0]? = some agg ∧
      agg.scores.lookup "drama" = some 5 := by
  obtain ⟨agg, h1, -, -, h4⟩ := c7_ensemble_median [[runA], [runB], [runC]]
    [runA] [[runB], [runC]] rfl 0 (by decide) "drama" (by decide) (by decide)
  exact ⟨agg, h1, h4 (by decide)⟩

/-- C8 counterexample: an ensemble batch in which both runs parse but every
parsed run carries a per-post error ("e0" then "e1").  Every run has failed
for the post, yet the aggregated error is "e0" — the FIRST run's error —
not the last failed run's "e1" as the claim states; the result also has no
final_score. -/
theorem c8_counterexample_first_not_last_error :
    (scoreBatchFromRuns postsC8 runsC8).map (fun p => p.error) = [some "e0"] ∧
    (scoreBatchFromRuns postsC8 runsC8).map (fun p => p.final_score) = [none] ∧
    ("e0" : String) ≠ "e1" :=
  ⟨rfl, rfl, by decide⟩

/-- C8 (amended): when no run both parses and is valid for a post, the
aggregated result carries an error and no final_score.  When every run
raises, each post's error is the message of the LAST raised run (or the
generic "All ensemble runs failed" with no runs at all); when at least one
run parses but none of the parsed runs is valid for a post, the error comes
from the FIRST parsed run for that post (its per-post error, or the generic
"No valid runs" when that error is falsy) — not from the last failed run as
originally claimed. -/
theorem c8_all_runs_failed
    (posts : List PostIn) (runs : List (Except String (List PostScore)))
    (hguard : ¬(posts.length = 1 ∧
      pyStrip ((posts.headD ⟨"unknown", ""⟩).text) = "")) :
    ((runs.filterMap (fun r =>
        match r with | .ok rr => some rr | .error _ => none)) = [] →
      scoreBatchFromRuns posts runs = posts.map (fun p =>
        { post_id := p.id, scores := [], categories := [], summary := "",
          error := some ((runs.filterMap (fun r =>
            match r with | .error e => some e | .ok _ => none)).getLast?.getD
            "All ensemble runs failed") })) ∧
    (∀ first rest, (runs.filterMap (fun r =>
        match r with | .ok rr => some rr | .error _ => none)) = first :: rest →
      ∀ post_idx, post_idx < first.length →
      ((first :: rest).map (fun run => run.getD post_idx dfltPostScore)).filter
        isValidRun = [] →
      ∃ agg, (scoreBatchFromRuns posts runs)[post_idx]? = some agg ∧
        agg.error = some (pyOrStr (first.getD post_idx dfltPostScore).error
          "No valid runs") ∧
        agg.final_score = none) := by
  constructor
  · intro hempty
    simp only [scoreBatchFromRuns, if_neg hguard]
    rw [if_pos hempty]
  · intro first rest hcons post_idx hidx hvnil
    simp only [scoreBatchFromRuns, if_neg hguard]
    rw [hcons, if_neg (by simp)]
    refine ⟨aggregatePost (first :: rest) first post_idx,
      aggregate_getElem? (first :: rest) first rest rfl post_idx hidx, ?_, ?_⟩
    · unfold aggregatePost
      rw [if_pos hvnil]
      rfl
    · unfold aggregatePost
      rw [if_pos hvnil]

/-- Witness for C8 at a concrete ensemble in which both runs raise: the
per-post error is the LAST raised message. -/
theorem c8_all_runs_failed_witness :
    scoreBatchFromRuns [⟨"p", "hey"⟩] [.error "x1", .error "x2"]
      = [{ post_id := "p", scores := [], categories := [], summary := "",
           error := some "x2" }] := by
  have h := (c8_all_runs_failed [⟨"p", "hey"⟩] [.error "x1", .error "x2"]
    (by decide)).1 rfl
  rw [h]
  rfl

/-! ### C2 (amended): an observed cancellation cleans up and never promotes -/

lemma applyCancel_post_scores (c : Option Nat) (b : Nat) (jid : String) (db : DB) :
    (applyCancel c b jid db).post_scores = db.post_scores := by
  unfold applyCancel
  split <;> rfl

lemma applyCancel_promote_log (c : Option Nat) (b : Nat) (jid : String) (db : DB) :
    (applyCancel c b jid db).promote_log = db.promote_log := by
  unfold applyCancel
  split <;> rfl

lemma applyCancel_llm_scores (c : Option Nat) (b : Nat) (jid : String) (db : DB) :
    (applyCancel c b jid db).llm_scores = db.llm_scores := by
  unfold applyCancel
  split <;> rfl

lemma applyCancel_eq_of_ne (k bidx : Nat) (jid : String) (db : DB) (h : k ≠ bidx) :
    applyCancel (some k) bidx jid db = db := by
  unfold applyCancel
  rw [if_neg (by simp [h])]

lemma applyCancel_eq_of_eq (bidx : Nat) (jid : String) (db : DB) :
    applyCancel (some bidx) bidx jid db
      = updJob db jid (fun j => { j with status := "cancelled" }) := by
  unfold applyCancel
  rw [if_pos rfl]

lemma insertRowSorted_length (r : ScoreRow) (l : List ScoreRow) :
    (insertRowSorted r l).length = l.length + 1 := by
  induction l with
  | nil => rfl
  | cons y ys ih =>
    simp only [insertRowSorted]
    split
    · rfl
    · simp [ih]

lemma sortScoresById_length (l : List ScoreRow) :
    (sortScoresById l).length = l.length := by
  induction l with
  | nil => rfl
  | cons a l ih =>
    unfold sortScoresById at ih ⊢
    rw [List.foldr_cons, insertRowSorted_length, ih]
    rfl

lemma fetchScoreBatch_ne_nil (db : DB) (offset : Nat)
    (h : offset < db.llm_scores.length) : fetchScoreBatch db offset ≠ [] := by
  unfold fetchScoreBatch
  intro hnil
  have hlen := congrArg List.length hnil
  rw [List.length_take, List.length_drop, sortScoresById_length] at hlen
  simp only [List.length_nil] at hlen
  have hB : BATCH_SIZE = 500 := rfl
  omega

lemma isEmpty_false_of_ne_nil {α : Type} {l : List α} (h : l ≠ []) :
    l.isEmpty = false := by
  cases l with
  | nil => exact absurd rfl h
  | cons a l => rfl

lemma recomputeBatches_cancel_observed
    (k : Nat) (jobId wcid : String) (weights : List (String × Rat))
    (novJson : JValue) (freqs : List (String × Int)) (total : Nat) :
    ∀ (fuel : Nat) (db : DB) (offset processed bidx : Nat) (jcur : Job),
      db.jobs.find? (fun jj => jj.id = jobId) = some jcur →
      (k < bidx → jcur.status = "cancelled") →
      db.llm_scores.length = total →
      offset = bidx * BATCH_SIZE →
      ∀ j : Nat, bidx ≤ j → k ≤ j → j % CANCEL_CHECK_INTERVAL = 0 →
        j * BATCH_SIZE < total → j < bidx + fuel →
      (recomputeBatches (some k) jobId wcid weights novJson freqs total
          fuel db offset processed bidx).2.2 = true ∧
      (recomputeBatches (some k) jobId wcid weights novJson freqs total
          fuel db offset processed bidx).1.staging.filter
        (fun r => r.job_id = jobId) = [] ∧
      (recomputeBatches (some k) jobId wcid weights novJson freqs total
          fuel db offset processed bidx).1.post_scores = db.post_scores ∧
      (recomputeBatches (some k) jobId wcid weights novJson freqs total
          fuel db offset processed bidx).1.promote_log = db.promote_log := by
  intro fuel
  induction fuel with
  | zero =>
    intro db offset processed bidx jcur _ _ _ _ j hbj _ _ _ hjf
    omega
  | succ fuel ih =>
    intro db offset processed bidx jcur hfind hst hlen hoff j hbj hkj hj5 hjt hjf
    have hlt : offset < total := by
      have h1 : bidx * BATCH_SIZE ≤ j * BATCH_SIZE := Nat.mul_le_mul_right _ hbj
      omega
    simp only [recomputeBatches]
    set d1 := applyCancel (some k) bidx jobId db with hd1
    have hfs1 : ∃ j1, d1.jobs.find? (fun jj => jj.id = jobId) = some j1 ∧
        (k ≤ bidx → j1.status = "cancelled") := by
      by_cases hkb : k = bidx
      · rw [hd1, hkb, applyCancel_eq_of_eq]
        exact ⟨_, find?_updJob db jobId
          (fun j => { j with status := "cancelled" }) (fun _ => rfl) hfind,
          fun _ => rfl⟩
      · rw [hd1, applyCancel_eq_of_ne _ _ _ _ hkb]
        exact ⟨jcur, hfind, fun hkle => hst (lt_of_le_of_ne hkle hkb)⟩
    obtain ⟨j1, hfind1, hst1⟩ := hfs1
    have hlen1 : d1.llm_scores.length = total := by
      rw [hd1, applyCancel_llm_scores]
      exact hlen
    have hpost1 : d1.post_scores = db.post_scores := by
      rw [hd1]
      exact applyCancel_post_scores _ _ _ _
    have hprom1 : d1.promote_log = db.promote_log := by
      rw [hd1]
      exact applyCancel_promote_log _ _ _ _
    rw [if_pos hlt]
    by_cases hcond : bidx % CANCEL_CHECK_INTERVAL = 0 ∧
        jobStatus d1 jobId = some "cancelled"
    · rw [if_pos hcond]
      refine ⟨rfl, ?_, ?_, ?_⟩
      · exact filter_not_filter_eq_nil d1.staging jobId
      · exact hpost1
      · exact hprom1
    · rw [if_neg hcond]
      have hbj2 : bidx < j := by
        rcases eq_or_lt_of_le hbj with heq | hlt2
        · exfalso
          apply hcond
          constructor
          · rw [heq]
            exact hj5
          · have hmap : jobStatus d1 jobId = some j1.status := by
              unfold jobStatus
              rw [hfind1]
              rfl
            rw [hmap, hst1 (by omega)]
        · exact hlt2
      have hfe : (fetchScoreBatch d1 offset).isEmpty = false :=
        isEmpty_false_of_ne_nil
          (fetchScoreBatch_ne_nil d1 offset (by rw [hlen1]; exact hlt))
      rw [if_neg (by simp [hfe])]
      set rows := processBatchRows (fetchScoreBatch d1 offset) jobId wcid weights
        novJson freqs (total : Int) with hrows
      set d2 := if rows.isEmpty = true then d1
        else { d1 with staging := upsertStaging d1.staging rows } with hd2
      set p2 := if rows.isEmpty = true then processed else processed + rows.length
        with hp2
      set d3 := if (!rows.isEmpty && (decide (bidx % PROGRESS_UPDATE_INTERVAL = 0)
            || decide (total ≤ offset + BATCH_SIZE))) = true
        then updJob d2 jobId (fun jj => { jj with progress := some (p2 : Int) })
        else d2 with hd3
      have hjobs2 : d2.jobs = d1.jobs := by
        rw [hd2]
        split <;> rfl
      have hllm2 : d2.llm_scores = d1.llm_scores := by
        rw [hd2]
        split <;> rfl
      have hpost2 : d2.post_scores = d1.post_scores := by
        rw [hd2]
        split <;> rfl
      have hprom2 : d2.promote_log = d1.promote_log := by
        rw [hd2]
        split <;> rfl
      have hf2 : d2.jobs.find? (fun jj => jj.id = jobId) = some j1 := by
        rw [hjobs2]
        exact hfind1
      have hfs3 : ∃ j3, d3.jobs.find? (fun jj => jj.id = jobId) = some j3 ∧
          j3.status = j1.status := by
        rw [hd3]
        split
        · exact ⟨_, find?_updJob d2 jobId
            (fun jj => { jj with progress := some (p2 : Int) }) (fun _ => rfl) hf2,
            rfl⟩
        · exact ⟨j1, hf2, rfl⟩
      obtain ⟨j3, hfind3, hst3⟩ := hfs3
      have hllm3 : d3.llm_scores = d2.llm_scores := by
        rw [hd3]
        split <;> rfl
      have hpost3 : d3.post_scores = d2.post_scores := by
        rw [hd3]
        split <;> rfl
      have hprom3 : d3.promote_log = d2.promote_log := by
        rw [hd3]
        split <;> rfl
      obtain ⟨hA, hB, hC, hD⟩ := ih d3 (offset + BATCH_SIZE) p2 (bidx + 1) j3 hfind3
        (fun hklt => by rw [hst3]; exact hst1 (by omega))
        (by rw [hllm3, hllm2, hlen1])
        (by rw [hoff]; ring)
        j (by omega) hkj hj5 hjt (by omega)
      exact ⟨hA, hB, hC.trans (by rw [hpost3, hpost2, hpost1]),
        hD.trans (by rw [hprom3, hprom2, hprom1])⟩

/-- C2 (amended): for every recompute job with valid params and a loadable
weight config, if the job's status flips to "cancelled" at any batch
boundary `k` such that SOME cancellation check still happens afterwards —
there is a batch index `jc ≥ k` with `jc` a multiple of
CANCEL_CHECK_INTERVAL that the loop still reaches (`jc * BATCH_SIZE` below
the score count) — then the worker deletes all of that job's staging rows
before returning, never invokes the staged-to-live promotion (the promote
log is unchanged), and changes zero live ranking rows.  (Without such a
check after the flip — a cancellation landing within the final
CANCEL_CHECK_INTERVAL batches — the loop can finish and promote, as the
counterexample shows, so the original unconditional claim fails.) -/
theorem c2_cancellation_cleanup
    (db : DB) (job : Job) (k : Nat) (pf : List (String × JValue)) (s : String)
    (j0 : Job) (jc : Nat)
    (hparams : job.params = .obj pf)
    (hwcid : jGet pf "weight_config_id" = some (.str s))
    (hs : s ≠ "")
    (hfind : db.jobs.find? (fun jj => jj.id = job.id) = some j0)
    (hload : ∃ w, loadWeightConfig db s = .ok w)
    (hkj : k ≤ jc) (hj5 : jc % CANCEL_CHECK_INTERVAL = 0)
    (hjt : jc * BATCH_SIZE < db.llm_scores.length) :
    (processRecomputeJob db job (some k)).1.staging.filter
      (fun r => r.job_id = job.id) = [] ∧
    (processRecomputeJob db job (some k)).1.post_scores = db.post_scores ∧
    (processRecomputeJob db job (some k)).1.promote_log = db.promote_log := by
  obtain ⟨w, hw⟩ := hload
  simp only [processRecomputeJob, hparams, hwcid]
  rw [if_neg hs]
  have hw1 : loadWeightConfig (updJob db job.id (fun jj =>
      { jj with started_at := true, status := "running" })) s = .ok w := hw
  rw [hw1]
  have hfind2 := find?_updJob (updJob db job.id (fun jj =>
      { jj with started_at := true, status := "running" })) job.id
    (fun jj => { jj with total := some ((updJob db job.id (fun jj =>
      { jj with started_at := true, status := "running" })).llm_scores.length : Int) })
    (fun _ => rfl)
    (find?_updJob db job.id (fun jj =>
      { jj with started_at := true, status := "running" }) (fun _ => rfl) hfind)
  have hres := recomputeBatches_cancel_observed k job.id s w
    (loadNoveltyConfig (updJob db job.id (fun jj =>
      { jj with started_at := true, status := "running" })))
    (updJob db job.id (fun jj =>
      { jj with started_at := true, status := "running" })).topic_frequencies
    (updJob db job.id (fun jj =>
      { jj with started_at := true, status := "running" })).llm_scores.length
    ((updJob db job.id (fun jj =>
      { jj with started_at := true, status := "running" })).llm_scores.length + 2)
    _ 0 0 0 _ hfind2
    (fun h => absurd h (Nat.not_lt_zero k))
    rfl rfl jc (Nat.zero_le jc) hkj hj5 hjt
    (by
      have h1 : jc * 1 ≤ jc * BATCH_SIZE :=
        Nat.mul_le_mul_left jc (by norm_num [BATCH_SIZE])
      have h2 : (updJob db job.id (fun jj =>
          { jj with started_at := true, status := "running" })).llm_scores.length
          = db.llm_scores.length := rfl
      omega)
  obtain ⟨hA, hB, hC, hD⟩ := hres
  split
  · rename_i e he
    exact Except.noConfusion he
  · rename_i ws hws
    injection hws with hws'
    subst hws'
    split
    · exact ⟨hB, hC, hD⟩
    · next hfalse => exact absurd hA hfalse

/-- Witness for C2 (amended) at a concrete store: the job of `dbC2`
cancelled before batch 0 (the check at index 0 observes it): no staging row
survives, the live rankings are untouched and the promotion RPC is never
called. -/
theorem c2_cancellation_cleanup_witness :
    (processRecomputeJob dbC2 jobC2 (some 0)).1.staging.filter
      (fun r => r.job_id = "job-2") = [] ∧
    (processRecomputeJob dbC2 jobC2 (some 0)).1.post_scores = dbC2.post_scores ∧
    (processRecomputeJob dbC2 jobC2 (some 0)).1.promote_log = dbC2.promote_log :=
  c2_cancellation_cleanup dbC2 jobC2 0 [("weight_config_id", .str "wc-1")] "wc-1"
    jobC2 0 rfl rfl (by decide) rfl ⟨[("drama", 1)], rfl⟩ (Nat.le_refl 0)
    (by decide) (by decide)


end NPD
